import Mathlib

/-!
Verification of the stock-insights metrics engine.

This file is a shallow embedding, in Lean 4, of the core computational
functions of the repository (the fiscal-period resolver in
`api/services/fmp_service.py`, the reconciliation and growth logic in
`api/services/calculators/current_year_calculator.py`,
`growth_calculator.py` and `ttm_calculator.py`, the pure metric helpers in
`api/utils/calculators.py` and `api/utils/data_extractors.py`, and the
orchestrator `api/services/metrics_service.py`), together with proofs of
the specification's claims about them.

Python `float` values are embedded as `ℚ`: every arithmetic operation the
claims exercise (sums, differences, division by a nonzero denominator,
multiplication by 100, rounding to two decimals) is exact on the concrete
decimal inputs involved.  Python's ambient `datetime.now()` is passed
explicitly (as-of year / month), and record dictionaries are embedded as
structures whose optional entries are `Option ℚ`.
-/

namespace StockInsights

/-- Python truthiness of an optional float: `None` and `0.0` are falsy. -/
def truthyOpt (o : Option ℚ) : Bool :=
  match o with
  | none => false
  | some v => v != 0

/-- Python `a or b` on two optional floats: yields `b` when `a` is falsy. -/
def pyOr (a b : Option ℚ) : Option ℚ :=
  if truthyOpt a then a else b

/-- Round-half-to-even on a rational, as Python's `round` ties-to-even. -/
def bankersRound (x : ℚ) : ℤ :=
  if Int.fract x = 1 / 2 then
    (if Int.floor x % 2 = 0 then Int.floor x else Int.floor x + 1)
  else round x

/-- Python `round(x, p)`: round to `p` decimal places, ties to even. -/
def roundTo (x : ℚ) (p : ℕ) : ℚ :=
  (bankersRound (x * (10 : ℚ) ^ p) : ℚ) / (10 : ℚ) ^ p

/-- Modelled from the spec: the repository's `MetricResult`
(`api/services/models/metric_models.py` is not under `src/`; §3 of the
spec describes it as "either `{state=success, value: float, precision:
int}` or `{state=failure, error_message: string}`", and
`base_calculator.py` constructs it via `MetricResult.success(value)` /
`MetricResult.failure(error_message)`). -/
inductive MetricResult where
  | success (value : ℚ)
  | failure (errorMessage : String)
  deriving DecidableEq, Repr

/-- Whether a `MetricResult` is in the success state. -/
def MetricResult.isSuccess : MetricResult → Bool
  | .success _ => true
  | .failure _ => false

/-- Modelled from the spec: `GROWTH_PRECISION` from the missing
`api/services/metrics_constants.py`; §4.3: "2 decimal places for
percentages/ratios". -/
def GROWTH_PRECISION : ℕ := 2

/-- Modelled from the spec: `RATIO_PRECISION` from the missing
`api/services/metrics_constants.py`; §4.3: "2 decimal places for
percentages/ratios". -/
def RATIO_PRECISION : ℕ := 2

/-- Modelled from the spec: `PERCENTAGE_MULTIPLIER` from the missing
constants module; the growth formula of §4.4 multiplies by 100. -/
def PERCENTAGE_MULTIPLIER : ℚ := 100

/-- `BaseCalculator._create_success_result`: rounds to the declared
precision and wraps in the success state. -/
def createSuccessResult (value : ℚ) (precision : ℕ) : MetricResult :=
  .success (roundTo value precision)

/-- `BaseCalculator._create_failure_result`. -/
def createFailureResult (msg : String) : MetricResult :=
  .failure msg

/-- `BaseCalculator._validate_positive_number`: `None` and non-positive
values are rejected. -/
def validatePositiveNumber (o : Option ℚ) : Bool :=
  match o with
  | none => false
  | some v => 0 < v

/-! ## Fiscal-period resolver (`api/services/fmp_service.py`) -/

/-- A parsed `YYYY-MM-DD` date. -/
structure MDate where
  year : ℤ
  month : ℕ
  day : ℕ
  deriving DecidableEq, Repr

/-- Day count of a month, with Gregorian leap years, as
`datetime.strptime` validates. -/
def daysInMonth (y : ℤ) (m : ℕ) : ℕ :=
  if m = 2 then (if y % 4 = 0 ∧ (y % 100 ≠ 0 ∨ y % 400 = 0) then 29 else 28)
  else if m = 4 ∨ m = 6 ∨ m = 9 ∨ m = 11 then 30
  else 31

/-- `'-'.split`-style splitting of a character list: `"a-b"` gives the
dash-separated fields, empty fields included, as Python's `str.split`
and the `%Y-%m-%d` format of `strptime` segment a date string. -/
def splitDash (cs : List Char) : List (List Char) :=
  match cs with
  | [] => [[]]
  | c :: rest =>
    let r := splitDash rest
    if c = '-' then [] :: r
    else (c :: r.headD []) :: r.tail

/-- A non-empty all-digit field read as a number (the way `int()` and
`strptime`'s numeric directives read the date fields). -/
def digitsToNat? (cs : List Char) : Option ℕ :=
  if cs = [] then none
  else
    cs.foldl
      (fun acc c =>
        match acc with
        | none => none
        | some n =>
          if '0' ≤ c ∧ c ≤ '9' then some (n * 10 + (c.toNat - '0'.toNat))
          else none)
      (some 0)

/-- `datetime.strptime(date_str, '%Y-%m-%d')`: three dash-separated
numeric fields forming a valid calendar date (year 1–9999, month 1–12,
day within the month); anything else raises, which we model as `none`. -/
def parseDate (s : String) : Option MDate :=
  match (splitDash s.data).map digitsToNat? with
  | [some y, some m, some d] =>
    if 1 ≤ y ∧ y ≤ 9999 ∧ 1 ≤ m ∧ m ≤ 12 ∧ 1 ≤ d ∧ d ≤ daysInMonth y m then
      some ⟨y, m, d⟩
    else none
  | _ => none

/-- The `"{year} Q{n}"` label used by the resolver. -/
def quarterLabel (y : ℤ) (q : ℕ) : String :=
  toString y ++ " Q" ++ toString q

/-- `FMPService._date_to_quarter`: calendar-quarter mapping
(Jan–Mar → Q1, Apr–Jun → Q2, Jul–Sep → Q3, Oct–Dec → Q4). -/
def dateToQuarter (s : String) : Option String :=
  match parseDate s with
  | none => none
  | some d =>
    if d.month ≤ 3 then some (quarterLabel d.year 1)
    else if d.month ≤ 6 then some (quarterLabel d.year 2)
    else if d.month ≤ 9 then some (quarterLabel d.year 3)
    else some (quarterLabel d.year 4)

/-- `FMPService._date_to_calendar_quarter`: fiscal-adjusted mapping; the
listed near-boundary day patterns map to the quarter that just ended,
every other parsable date falls back to `_date_to_quarter`. -/
def dateToCalendarQuarter (s : String) : Option String :=
  match parseDate s with
  | none => none
  | some d =>
    if (d.month = 4 ∧ d.day = 1) ∨ (d.month = 3 ∧ 25 ≤ d.day) then
      some (quarterLabel d.year 1)
    else if (d.month = 7 ∧ d.day = 1) ∨ (d.month = 6 ∧ 25 ≤ d.day) then
      some (quarterLabel d.year 2)
    else if d.month = 9 ∧ 25 ≤ d.day then
      some (quarterLabel d.year 3)
    else if d.month = 12 ∧ 25 ≤ d.day then
      some (quarterLabel d.year 4)
    else dateToQuarter s

/-! ## Reconciliation engine
(`api/services/calculators/current_year_calculator.py`) -/

/-- One quarterly income-statement record, as consumed by
`CurrentYearCalculator` (a dict with `date`, `eps`, `revenue`). -/
structure QRecord where
  date : String
  eps : Option ℚ
  revenue : Option ℚ
  deriving DecidableEq, Repr

/-- One analyst-estimate record (a dict with `date`, `estimatedEpsAvg`,
`estimatedRevenueAvg`; FMP payloads may also carry `epsAvg`, which the
documented schema does not, see `get_two_year_forward_pe`). -/
structure EstRecord where
  date : String
  estimatedEpsAvg : Option ℚ
  estimatedRevenueAvg : Option ℚ
  epsAvg : Option ℚ
  deriving DecidableEq, Repr

/-- `int(date_str.split('-')[0])`: the resolved calendar year of a record
date, `none` when Python's `int()` would raise (the field before the
first dash never contains a sign, so a digit parse models `int()`). -/
def parseYearInt (s : String) : Option ℤ :=
  (digitsToNat? ((splitDash s.data).headD [])).map Int.ofNat

/-- The descending-by-key order used by
`filtered.sort(key=..., reverse=True)`. -/
def descOn {α : Type} (key : α → String) (a b : α) : Prop :=
  key b ≤ key a

instance {α : Type} (key : α → String) : DecidableRel (descOn key) :=
  fun a b => inferInstanceAs (Decidable (key b ≤ key a))

instance {α : Type} (key : α → String) : IsTotal α (descOn key) :=
  ⟨fun a b => le_total (key b) (key a)⟩

instance {α : Type} (key : α → String) : IsTrans α (descOn key) :=
  ⟨fun _ _ _ h h' => le_trans h' h⟩

/-- `CurrentYearCalculator.filter_quarters_by_year`, generic in the record
type: keep records whose resolved year matches, then sort by date
descending with Python's stable `list.sort`. -/
def filterByYearBy {α : Type} (date : α → String) (data : List α)
    (targetYear : ℤ) : List α :=
  List.insertionSort (descOn date)
    (data.filter (fun q => parseYearInt (date q) = some targetYear))

/-- `filter_quarters_by_year` applied to quarterly records. -/
def filterQuartersByYear (data : List QRecord) (targetYear : ℤ) :
    List QRecord :=
  filterByYearBy QRecord.date data targetYear

/-- `sum(q.get(f, 0) for q in l if q.get(f) is not None)`. -/
def sumField {α : Type} (f : α → Option ℚ) (l : List α) : ℚ :=
  (l.filterMap f).sum

/-- `CurrentYearCalculator.get_actual_quarters_data`: EPS and revenue
summed over the `n` most recent quarters of the year. -/
def getActualQuartersData (quarterlyData : List QRecord) (targetYear : ℤ)
    (numQuarters : ℕ) : ℚ × ℚ :=
  if quarterlyData = [] then (0, 0)
  else
    let yearData := filterQuartersByYear quarterlyData targetYear
    let actualQuarters := yearData.take numQuarters
    (sumField QRecord.eps actualQuarters, sumField QRecord.revenue actualQuarters)

/-- `CurrentYearCalculator._get_quarterly_estimates`. -/
def getQuarterlyEstimates (estimatesData : List EstRecord) (targetYear : ℤ)
    (numQuarters : ℕ) : ℚ × ℚ :=
  let yearData := filterByYearBy EstRecord.date estimatesData targetYear
  let estimatedQuarters := yearData.take numQuarters
  (sumField EstRecord.estimatedEpsAvg estimatedQuarters,
   sumField EstRecord.estimatedRevenueAvg estimatedQuarters)

/-- The `for estimate in estimates_data: ... break` search for the first
record resolving to the target year (parse failures skipped). -/
def findAnnualEstimate (estimatesData : List EstRecord) (targetYear : ℤ) :
    Option EstRecord :=
  estimatesData.find? (fun e => parseYearInt e.date = some targetYear)

/-- `CurrentYearCalculator._get_annual_estimates_scaled`: annual estimate
divided by 4 and scaled by the number of remaining quarters
(`x or 0.0` collapses `None` to zero). -/
def getAnnualEstimatesScaled (estimatesData : List EstRecord)
    (targetYear : ℤ) (numQuarters : ℕ) : ℚ × ℚ :=
  match findAnnualEstimate estimatesData targetYear with
  | none => (0, 0)
  | some e =>
    (e.estimatedEpsAvg.getD 0 / 4 * numQuarters,
     e.estimatedRevenueAvg.getD 0 / 4 * numQuarters)

/-- `CurrentYearCalculator.get_estimated_quarters_data`: quarterly
estimates preferred, annual fallback when their sums are not positive. -/
def getEstimatedQuartersData (estimatesData : List EstRecord)
    (targetYear : ℤ) (numQuarters : ℕ) : ℚ × ℚ :=
  if estimatesData = [] ∨ numQuarters = 0 then (0, 0)
  else
    let q := getQuarterlyEstimates estimatesData targetYear numQuarters
    if 0 < q.1 ∨ 0 < q.2 then q
    else getAnnualEstimatesScaled estimatesData targetYear numQuarters

/-- `CurrentYearCalculator.get_all_estimated_quarters_data`: all four
quarters; the annual fallback returns the annual values directly. -/
def getAllEstimatedQuartersData (estimatesData : List EstRecord)
    (targetYear : ℤ) : ℚ × ℚ :=
  if estimatesData = [] then (0, 0)
  else
    let q := getQuarterlyEstimates estimatesData targetYear 4
    if 0 < q.1 ∨ 0 < q.2 then q
    else
      match findAnnualEstimate estimatesData targetYear with
      | none => (0, 0)
      | some e => (e.estimatedEpsAvg.getD 0, e.estimatedRevenueAvg.getD 0)

/-- `CurrentYearCalculator.get_quarters_elapsed_in_year`, with the ambient
`datetime.now()` passed explicitly as an as-of year and month. -/
def getQuartersElapsedInYear (asOfYear : ℤ) (asOfMonth : ℕ)
    (targetYear : ℤ) : ℕ :=
  if asOfYear < targetYear then 0
  else if targetYear < asOfYear then 4
  else if asOfMonth ≤ 3 then 0
  else if asOfMonth ≤ 6 then 1
  else if asOfMonth ≤ 9 then 2
  else 3

/-- The `YearAggregate` dictionary built by the hybrid calculation. -/
structure YearAggregate where
  year : ℤ
  quartersElapsed : ℕ
  quartersRemaining : ℕ
  actualEps : ℚ
  estimatedEps : ℚ
  hybridEps : ℚ
  actualRevenue : ℚ
  estimatedRevenue : ℚ
  hybridRevenue : ℚ
  deriving DecidableEq, Repr

/-- `CurrentYearCalculator.calculate_hybrid_current_year`: blend actual
data for elapsed quarters with estimates for the remaining ones. -/
def calculateHybridCurrentYear (quarterlyData : List QRecord)
    (estimatesData : List EstRecord) (targetYear : ℤ)
    (asOfYear : ℤ) (asOfMonth : ℕ) : YearAggregate :=
  let quartersElapsed := getQuartersElapsedInYear asOfYear asOfMonth targetYear
  let quartersRemaining := 4 - quartersElapsed
  let actual :=
    if 0 < quartersElapsed then
      getActualQuartersData quarterlyData targetYear quartersElapsed
    else (0, 0)
  let estimated :=
    if 0 < quartersRemaining then
      getEstimatedQuartersData estimatesData targetYear quartersRemaining
    else (0, 0)
  { year := targetYear
    quartersElapsed := quartersElapsed
    quartersRemaining := quartersRemaining
    actualEps := actual.1
    estimatedEps := estimated.1
    hybridEps := actual.1 + estimated.1
    actualRevenue := actual.2
    estimatedRevenue := estimated.2
    hybridRevenue := actual.2 + estimated.2 }

/-- `CurrentYearCalculator.calculate_actual_previous_year`: all four
quarters of a completed year; hybrid coincides with actual. -/
def calculateActualPreviousYear (quarterlyData : List QRecord)
    (targetYear : ℤ) : YearAggregate :=
  let actual := getActualQuartersData quarterlyData targetYear 4
  { year := targetYear
    quartersElapsed := 4
    quartersRemaining := 0
    actualEps := actual.1
    estimatedEps := 0
    hybridEps := actual.1
    actualRevenue := actual.2
    estimatedRevenue := 0
    hybridRevenue := actual.2 }

/-- The pair of growth `MetricResult`s returned by
`calculate_current_year_growth_rates`. -/
structure GrowthRates where
  epsGrowth : MetricResult
  revenueGrowth : MetricResult
  deriving DecidableEq, Repr

/-- `CurrentYearCalculator.calculate_current_year_growth_rates`: hybrid
current year against actual previous year; growth defaults to `0.0`
whenever the previous-year aggregate is zero, and both results are
wrapped as successes. -/
def calculateCurrentYearGrowthRates (quarterlyData : List QRecord)
    (estimatesData : List EstRecord) (currentYear previousYear : ℤ)
    (asOfYear : ℤ) (asOfMonth : ℕ) : GrowthRates :=
  let currentMetrics :=
    calculateHybridCurrentYear quarterlyData estimatesData currentYear
      asOfYear asOfMonth
  let previousMetrics := calculateActualPreviousYear quarterlyData previousYear
  let epsGrowth :=
    if previousMetrics.hybridEps ≠ 0 then
      (currentMetrics.hybridEps - previousMetrics.hybridEps) /
        |previousMetrics.hybridEps| * 100
    else 0
  let revenueGrowth :=
    if previousMetrics.hybridRevenue ≠ 0 then
      (currentMetrics.hybridRevenue - previousMetrics.hybridRevenue) /
        |previousMetrics.hybridRevenue| * 100
    else 0
  { epsGrowth := createSuccessResult epsGrowth GROWTH_PRECISION
    revenueGrowth := createSuccessResult revenueGrowth GROWTH_PRECISION }

/-! ## Growth calculator (`api/services/calculators/growth_calculator.py`) -/

/-- `GrowthCalculator._calculate_growth_percentage`:
`(current − previous) / abs(previous) × 100`, `None` when
`previous == 0`. -/
def calculateGrowthPercentage (currentValue previousValue : ℚ) : Option ℚ :=
  if previousValue = 0 then none
  else some ((currentValue - previousValue) / |previousValue| *
    PERCENTAGE_MULTIPLIER)

/-- `GrowthCalculator.calculate_simple_growth`: both operands validated
positive first, then the generic growth formula. -/
def calculateSimpleGrowth (currentValue previousValue : Option ℚ) :
    MetricResult :=
  if ¬ validatePositiveNumber currentValue then
    createFailureResult "Invalid current value"
  else if ¬ validatePositiveNumber previousValue then
    createFailureResult "Invalid previous value"
  else
    match calculateGrowthPercentage (currentValue.getD 0)
      (previousValue.getD 0) with
    | none => createFailureResult "Could not calculate growth rate"
    | some g => createSuccessResult g GROWTH_PRECISION

/-! ## TTM calculator (`api/services/calculators/ttm_calculator.py`) -/

/-- Modelled from the spec: the window constants of the missing
`api/services/metrics_constants.py`.  §4.4 and the glossary fix TTM at
the four most recent quarters (`QUARTERS_FOR_TTM = 4`, so
`MIN_QUARTERS_FOR_TTM = 4`), the prior window at quarters 5–8
(`QUARTERS_FOR_COMPARISON = 8`), and TTM growth at a minimum of eight
quarters (`MIN_QUARTERS_FOR_GROWTH = 8`); `metrics_service_original.py`
uses the same literals 4 and 8 inline. -/
def QUARTERS_FOR_TTM : ℕ := 4

/-- Modelled from the spec: see `QUARTERS_FOR_TTM`. -/
def MIN_QUARTERS_FOR_TTM : ℕ := 4

/-- Modelled from the spec: see `QUARTERS_FOR_TTM`. -/
def QUARTERS_FOR_COMPARISON : ℕ := 8

/-- Modelled from the spec: see `QUARTERS_FOR_TTM`. -/
def MIN_QUARTERS_FOR_GROWTH : ℕ := 8

/-- Modelled from the spec: the metric-key string constants of the missing
`api/services/metrics_constants.py`; the strings are the panel keys of
`metrics_service.py`. -/
def TTM_PE_KEY : String := "ttm_pe"

/-- Modelled from the spec: see `TTM_PE_KEY`. -/
def TTM_PS_RATIO_KEY : String := "ttm_ps_ratio"

/-- Modelled from the spec: see `TTM_PE_KEY`. -/
def TTM_EPS_GROWTH_KEY : String := "ttm_eps_growth"

/-- Modelled from the spec: see `TTM_PE_KEY`. -/
def TTM_REVENUE_GROWTH_KEY : String := "ttm_revenue_growth"

/-- Modelled from the spec: see `TTM_PE_KEY`. -/
def GROSS_MARGIN_KEY : String := "gross_margin"

/-- Modelled from the spec: see `TTM_PE_KEY`. -/
def NET_MARGIN_KEY : String := "net_margin"

/-- One typed quarterly record of the TTM calculator
(`QuarterlyData` in the missing `metric_models.py`; its four numeric
fields are exactly the ones `_calculate_ttm_aggregates` reads). -/
structure QuarterlyData where
  revenue : Option ℚ
  costOfRevenue : Option ℚ
  netIncome : Option ℚ
  eps : Option ℚ
  deriving DecidableEq, Repr

/-- The aggregate sums of `TTMCalculator._calculate_ttm_aggregates`
(`x or 0` turns `None` into zero contribution). -/
structure TTMValues where
  revenue : ℚ
  costOfRevenue : ℚ
  netIncome : ℚ
  eps : ℚ
  deriving DecidableEq, Repr

/-- `TTMCalculator._calculate_ttm_aggregates`. -/
def calculateTtmAggregates (quarters : List QuarterlyData) : TTMValues :=
  { revenue := (quarters.map (fun q => q.revenue.getD 0)).sum
    costOfRevenue := (quarters.map (fun q => q.costOfRevenue.getD 0)).sum
    netIncome := (quarters.map (fun q => q.netIncome.getD 0)).sum
    eps := (quarters.map (fun q => q.eps.getD 0)).sum }

/-- `TTMCalculator._calculate_growth_percentage` (same formula as the
growth calculator's). -/
def ttmGrowthPercentage (currentValue previousValue : ℚ) : Option ℚ :=
  if previousValue = 0 then none
  else some ((currentValue - previousValue) / |previousValue| *
    PERCENTAGE_MULTIPLIER)

/-- `TTMCalculator._calculate_growth_rate`: positive-value validation on
both operands, then the growth percentage. -/
def ttmCalculateGrowthRate (currentValue previousValue : ℚ)
    (metricName : String) : MetricResult :=
  if ¬ validatePositiveNumber (some currentValue) then
    createFailureResult ("Invalid current value for " ++ metricName)
  else if ¬ validatePositiveNumber (some previousValue) then
    createFailureResult ("Invalid previous value for " ++ metricName)
  else
    match ttmGrowthPercentage currentValue previousValue with
    | none => createFailureResult ("Could not calculate " ++ metricName)
    | some g => createSuccessResult g GROWTH_PRECISION

/-- `TTMCalculator._calculate_ttm_pe`. -/
def calculateTtmPe (currentPrice ttmEps : ℚ) : MetricResult :=
  if ¬ validatePositiveNumber (some currentPrice) then
    createFailureResult "Invalid current price for TTM P/E"
  else if ¬ validatePositiveNumber (some ttmEps) then
    createFailureResult "Invalid TTM EPS for P/E calculation"
  else createSuccessResult (currentPrice / ttmEps) RATIO_PRECISION

/-- `TTMCalculator._calculate_ttm_ps`. -/
def calculateTtmPs (marketCap ttmRevenue : ℚ) : MetricResult :=
  if ¬ validatePositiveNumber (some marketCap) then
    createFailureResult "Invalid market cap for TTM P/S"
  else if ¬ validatePositiveNumber (some ttmRevenue) then
    createFailureResult "Invalid TTM revenue for P/S calculation"
  else createSuccessResult (marketCap / ttmRevenue) RATIO_PRECISION

/-- `TTMCalculator._calculate_ttm_margins` (revenue validated positive, so
`_safe_percentage` cannot hit a zero denominator). -/
def calculateTtmMargins (ttmValues : TTMValues) :
    List (String × MetricResult) :=
  [(GROSS_MARGIN_KEY,
    if validatePositiveNumber (some ttmValues.revenue) then
      createSuccessResult
        ((ttmValues.revenue - ttmValues.costOfRevenue) / ttmValues.revenue *
          100) GROWTH_PRECISION
    else createFailureResult "Invalid TTM revenue for gross margin"),
   (NET_MARGIN_KEY,
    if validatePositiveNumber (some ttmValues.revenue) then
      createSuccessResult (ttmValues.netIncome / ttmValues.revenue * 100)
        GROWTH_PRECISION
    else createFailureResult "Invalid TTM revenue for net margin")]

/-- `TTMCalculator._calculate_ttm_growth_rates`: current window
`[:QUARTERS_FOR_TTM]` against previous window
`[QUARTERS_FOR_TTM:QUARTERS_FOR_COMPARISON]`. -/
def calculateTtmGrowthRates (quarterlyData : List QuarterlyData) :
    List (String × MetricResult) :=
  let currentTtm := calculateTtmAggregates (quarterlyData.take QUARTERS_FOR_TTM)
  let previousTtm := calculateTtmAggregates
    ((quarterlyData.drop QUARTERS_FOR_TTM).take
      (QUARTERS_FOR_COMPARISON - QUARTERS_FOR_TTM))
  [(TTM_EPS_GROWTH_KEY,
    ttmCalculateGrowthRate currentTtm.eps previousTtm.eps "TTM EPS growth"),
   (TTM_REVENUE_GROWTH_KEY,
    ttmCalculateGrowthRate currentTtm.revenue previousTtm.revenue
      "TTM revenue growth")]

/-- `TTMCalculator._create_all_failure_results`. -/
def createAllFailureResults (errorMessage : String) :
    List (String × MetricResult) :=
  [(TTM_PE_KEY, createFailureResult errorMessage),
   (TTM_PS_RATIO_KEY, createFailureResult errorMessage),
   (TTM_EPS_GROWTH_KEY, createFailureResult errorMessage),
   (TTM_REVENUE_GROWTH_KEY, createFailureResult errorMessage),
   (GROSS_MARGIN_KEY, createFailureResult errorMessage),
   (NET_MARGIN_KEY, createFailureResult errorMessage)]

/-- The `TTMCalculationInput` of the missing `metric_models.py`: the
quarterly records plus spot price and market cap. -/
structure TTMCalculationInput where
  quarterlyData : List QuarterlyData
  currentPrice : Option ℚ
  marketCap : Option ℚ
  deriving DecidableEq, Repr

/-- `TTMCalculator.calculate`: the result dictionary, in insertion order
(P/E and P/S only under truthy price / market cap, margins always,
growth only with at least `MIN_QUARTERS_FOR_GROWTH` quarters). -/
def ttmCalculate (inputData : TTMCalculationInput) :
    List (String × MetricResult) :=
  let quarterlyData := inputData.quarterlyData
  if quarterlyData.length < MIN_QUARTERS_FOR_TTM then
    createAllFailureResults
      ("Insufficient quarterly data for TTM calculations (need " ++
        toString MIN_QUARTERS_FOR_TTM ++ ", got " ++
        toString quarterlyData.length ++ ")")
  else
    let ttmValues := calculateTtmAggregates (quarterlyData.take QUARTERS_FOR_TTM)
    (if truthyOpt inputData.currentPrice then
      [(TTM_PE_KEY, calculateTtmPe (inputData.currentPrice.getD 0)
        ttmValues.eps)]
     else []) ++
    (if truthyOpt inputData.marketCap then
      [(TTM_PS_RATIO_KEY, calculateTtmPs (inputData.marketCap.getD 0)
        ttmValues.revenue)]
     else []) ++
    calculateTtmMargins ttmValues ++
    (if MIN_QUARTERS_FOR_GROWTH ≤ quarterlyData.length then
      calculateTtmGrowthRates quarterlyData
     else [])

/-! ## Data extraction utilities (`api/utils/data_extractors.py`) -/

/-- `date_str.split('-')[0]`: the year *string* keying
`extract_metric_by_year` (no integer conversion there). -/
def yearKey (s : String) : String :=
  String.mk ((splitDash s.data).headD [])

/-- One loop iteration of `DataExtractor.extract_metric_by_year`: a
record with a non-empty date and a present metric value overwrites the
entry for its year string. -/
def extractStep (metric : EstRecord → Option ℚ)
    (acc : String → Option ℚ) (item : EstRecord) : String → Option ℚ :=
  fun y =>
    if item.date ≠ "" ∧ yearKey item.date = y ∧ (metric item).isSome then
      metric item
    else acc y

/-- `DataExtractor.extract_metric_by_year`, as the lookup function of the
dictionary it builds: records with an empty date or a missing metric are
skipped, later records overwrite earlier ones for the same year string. -/
def extractMetricByYear (fmpData : List EstRecord)
    (metric : EstRecord → Option ℚ) : String → Option ℚ :=
  fmpData.foldl (extractStep metric) (fun _ => none)

/-- A YFinance forecast frame, reduced to what
`DataExtractor.extract_forecast_growth` reads from it: emptiness (for
`_is_valid_data`) and the `growth` column at the `0y` / `+1y` rows
(`none` where `.loc` would raise `KeyError`). -/
structure Forecast where
  nonempty : Bool
  growth0y : Option ℚ
  growth1y : Option ℚ
  deriving DecidableEq, Repr

/-- Row lookup `forecast_data.loc[period, 'growth']`. -/
def Forecast.growthAt (f : Forecast) (period : String) : Option ℚ :=
  if period = "0y" then f.growth0y
  else if period = "+1y" then f.growth1y
  else none

/-- `DataExtractor.extract_forecast_growth`: `None` input has no `.loc`,
a found value is scaled to a percentage and rounded. -/
def extractForecastGrowth (forecastData : Option Forecast)
    (period : String) : Option ℚ :=
  match forecastData with
  | none => none
  | some f => (f.growthAt period).map (fun v => roundTo (v * 100) 2)

/-! ## Pure metric helpers (`api/utils/calculators.py`) -/

/-- The YFinance `stock_info` dictionary, with every entry the code reads:
the extracted snake-case fields built by
`YFinanceService.fetch_stock_info` and the raw camel-case fallbacks the
`MetricsCalculator` getters also probe. -/
structure StockInfo where
  trailing_pe : Option ℚ
  forward_pe : Option ℚ
  price_to_sales_ttm : Option ℚ
  gross_margins : Option ℚ
  profit_margins : Option ℚ
  earnings_growth : Option ℚ
  revenue_growth : Option ℚ
  market_cap : Option ℚ
  current_price : Option ℚ
  total_revenue : Option ℚ
  trailingPE : Option ℚ
  forwardPE : Option ℚ
  priceToSalesTrailing12Months : Option ℚ
  grossMargins : Option ℚ
  profitMargins : Option ℚ
  earningsGrowth : Option ℚ
  revenueGrowth : Option ℚ
  marketCap : Option ℚ
  totalRevenue : Option ℚ
  deriving DecidableEq, Repr

/-- `MetricsCalculator.get_ttm_pe`. -/
def getTtmPe (si : StockInfo) : Option ℚ :=
  (pyOr si.trailing_pe si.trailingPE).map (fun v => roundTo v 2)

/-- `MetricsCalculator.get_forward_pe`. -/
def getForwardPe (si : StockInfo) : Option ℚ :=
  (pyOr si.forward_pe si.forwardPE).map (fun v => roundTo v 2)

/-- `MetricsCalculator.get_ttm_ps`. -/
def getTtmPs (si : StockInfo) : Option ℚ :=
  (pyOr si.price_to_sales_ttm si.priceToSalesTrailing12Months).map
    (fun v => roundTo v 2)

/-- `MetricsCalculator.get_gross_margin`. -/
def getGrossMargin (si : StockInfo) : Option ℚ :=
  (pyOr si.gross_margins si.grossMargins).map (fun v => roundTo v 2)

/-- `MetricsCalculator.get_net_margin`. -/
def getNetMargin (si : StockInfo) : Option ℚ :=
  (pyOr si.profit_margins si.profitMargins).map (fun v => roundTo v 2)

/-- `MetricsCalculator.get_earnings_growth`: the extracted field is
already a percentage; the raw fallback is scaled by 100. -/
def getEarningsGrowth (si : StockInfo) : Option ℚ :=
  match si.earnings_growth with
  | some v => some (roundTo v 2)
  | none => si.earningsGrowth.map (fun v => roundTo (v * 100) 2)

/-- `MetricsCalculator.get_revenue_growth`. -/
def getRevenueGrowth (si : StockInfo) : Option ℚ :=
  match si.revenue_growth with
  | some v => some (roundTo v 2)
  | none => si.revenueGrowth.map (fun v => roundTo (v * 100) 2)

/-- `MetricsCalculator.get_forward_ps_ratio`: market cap over revenue
scaled by the next-year growth forecast (`ZeroDivisionError` caught as
`None`). -/
def getForwardPsRatio (si : StockInfo) (revenueForecast : Option Forecast) :
    Option ℚ :=
  match pyOr si.market_cap si.marketCap with
  | none => none
  | some marketCap =>
    match extractForecastGrowth revenueForecast "+1y" with
    | none => none
    | some nextYearGrowth =>
      match pyOr si.total_revenue si.totalRevenue with
      | none => none
      | some currentRevenue =>
        let forwardRevenue := currentRevenue * (1 + nextYearGrowth / 100)
        if forwardRevenue = 0 then none
        else some (roundTo (marketCap / forwardRevenue) 2)

/-- `MetricsCalculator.get_two_year_forward_pe`, with the ambient
`datetime.now().year` passed explicitly: the `epsAvg` estimate for the
year two years ahead, `None` when it is missing or non-positive. -/
def getTwoYearForwardPe (currentYear : ℤ) (currentPrice : ℚ)
    (fmpData : List EstRecord) : Option ℚ :=
  let targetYear := toString (currentYear + 2)
  match extractMetricByYear fmpData EstRecord.epsAvg targetYear with
  | none => none
  | some targetEps =>
    if targetEps ≤ 0 then none
    else some (roundTo (currentPrice / targetEps) 2)

/-! ## Orchestrator (`api/services/metrics_service.py`)

`MetricsService.get_metrics` is embedded over its already-fetched inputs
(the spec's §1/§6 place the fetching collaborators out of scope): the
YFinance `stock_info` dictionary (or `None`), the FMP analyst-estimate
list (or `None`), the two YFinance forecast frames, and the ambient
current year.  One wrinkle of the source is kept visible: the call
`util.get_two_year_forward_pe(ticker, current_price, fmp_data)` binds the
list to the wrapper's `api_key` parameter, so the wrapper re-fetches
analyst estimates itself and ignores the passed list; that re-fetched
list is the explicit `fmpRefetched` input here. -/

/-- A value of the final metrics mapping: a number, the `None`
absent-value marker, or a string (the ticker). -/
inductive PVal where
  | absent
  | num (q : ℚ)
  | str (s : String)
  deriving DecidableEq, Repr

/-- `Option ℚ` stored into the mapping as Python would store
a float-or-`None`. -/
def optNum (o : Option ℚ) : PVal :=
  match o with
  | none => PVal.absent
  | some q => PVal.num q

/-- Python `dict.update`: existing keys are overwritten in place, new
keys are appended in patch order. -/
def dictUpdate {β : Type} (base patch : List (String × β)) :
    List (String × β) :=
  base.map (fun kv =>
    match List.lookup kv.1 patch with
    | some v => (kv.1, v)
    | none => kv) ++
  patch.filter (fun kv => (List.lookup kv.1 base).isNone)

/-- A single `result[key] = value` assignment. -/
def dictSet {β : Type} (base : List (String × β)) (k : String) (v : β) :
    List (String × β) :=
  dictUpdate base [(k, v)]

/-- `MetricsService._is_valid_data` on the FMP list: non-`None` and
non-empty. -/
def isValidList (data : Option (List EstRecord)) : Bool :=
  match data with
  | none => false
  | some l => ¬ l.isEmpty

/-- `MetricsService._is_valid_data` on a forecast frame: non-`None` and
`not data.empty`. -/
def isValidForecast (data : Option Forecast) : Bool :=
  match data with
  | none => false
  | some f => f.nonempty

/-- The initial panel of `get_metrics`: every metric key, `price` and
`market_cap` at `None`, plus the upper-cased ticker, in source order. -/
def initResult (ticker : String) : List (String × PVal) :=
  [("ttm_pe", .absent),
   ("forward_pe", .absent),
   ("two_year_forward_pe", .absent),
   ("ttm_eps_growth", .absent),
   ("current_year_eps_growth", .absent),
   ("next_year_eps_growth", .absent),
   ("ttm_revenue_growth", .absent),
   ("current_year_revenue_growth", .absent),
   ("next_year_revenue_growth", .absent),
   ("gross_margin", .absent),
   ("net_margin", .absent),
   ("ttm_ps_ratio", .absent),
   ("forward_ps_ratio", .absent),
   ("ticker", .str ticker.toUpper),
   ("price", .absent),
   ("market_cap", .absent)]

/-- `MetricsService._calculate_basic_metrics`. -/
def calcBasicMetrics (si : StockInfo) : List (String × PVal) :=
  [("ttm_pe", optNum (getTtmPe si)),
   ("forward_pe", optNum (getForwardPe si)),
   ("ttm_eps_growth", optNum (getEarningsGrowth si)),
   ("ttm_revenue_growth", optNum (getRevenueGrowth si)),
   ("gross_margin", optNum (getGrossMargin si)),
   ("net_margin", optNum (getNetMargin si)),
   ("ttm_ps_ratio", optNum (getTtmPs si))]

/-- `MetricsService._extract_stock_info_fields`. -/
def extractStockInfoFields (si : StockInfo) : List (String × PVal) :=
  [("price", optNum si.current_price),
   ("market_cap", optNum si.market_cap)]

/-- A key set only under Python truthiness of its value. -/
def condEntry {β : Type} (k : String) (o : Option ℚ) (mk : ℚ → β) :
    List (String × β) :=
  if truthyOpt o then [(k, mk (o.getD 0))] else []

/-- `MetricsService._calculate_fmp_metrics`: the two-year forward P/E,
only under truthy price and truthy result. -/
def calcFmpMetrics (currentYear : ℤ) (si : StockInfo)
    (fmpRefetched : List EstRecord) : List (String × PVal) :=
  if truthyOpt si.current_price then
    condEntry "two_year_forward_pe"
      (getTwoYearForwardPe currentYear (si.current_price.getD 0) fmpRefetched)
      PVal.num
  else []

/-- One year-over-year growth entry of
`MetricsService._calculate_fmp_growth_metrics`: both years must be
present and the previous value truthy. -/
def yoyEntry (k : String) (mCur mPrev : Option ℚ) : List (String × ℚ) :=
  match mCur, mPrev with
  | some cur, some prev =>
    if prev ≠ 0 then [(k, roundTo ((cur - prev) / |prev| * 100) 2)] else []
  | _, _ => []

/-- `MetricsService._calculate_fmp_growth_metrics`, with the ambient
`datetime.now().year` explicit. -/
def calcFmpGrowthMetrics (fmpList : List EstRecord) (currentYear : ℤ) :
    List (String × ℚ) :=
  let epsByYear := extractMetricByYear fmpList EstRecord.estimatedEpsAvg
  let revByYear := extractMetricByYear fmpList EstRecord.estimatedRevenueAvg
  let cy := toString currentYear
  let ny := toString (currentYear + 1)
  let py := toString (currentYear - 1)
  yoyEntry "current_year_eps_growth" (epsByYear cy) (epsByYear py) ++
  yoyEntry "next_year_eps_growth" (epsByYear ny) (epsByYear cy) ++
  yoyEntry "current_year_revenue_growth" (revByYear cy) (revByYear py) ++
  yoyEntry "next_year_revenue_growth" (revByYear ny) (revByYear cy)

/-- The YFinance tier of `MetricsService._calculate_forecast_metrics`:
each growth value is stored only when available and truthy. -/
def forecastTier1 (ef rf : Option Forecast) : List (String × ℚ) :=
  (if isValidForecast ef then
    condEntry "current_year_eps_growth" (extractForecastGrowth ef "0y") id ++
    condEntry "next_year_eps_growth" (extractForecastGrowth ef "+1y") id
  else []) ++
  (if isValidForecast rf then
    condEntry "current_year_revenue_growth"
      (extractForecastGrowth rf "0y") id ++
    condEntry "next_year_revenue_growth"
      (extractForecastGrowth rf "+1y") id
  else [])

/-- Whether a member of the `current_year`/`next_year` pair named by the
two keys is missing from the YFinance tier. -/
def missingPair (r2 : List (String × ℚ)) (k1 k2 : String) : Prop :=
  (List.lookup k1 r2).isNone ∨ (List.lookup k2 r2).isNone

instance (r2 : List (String × ℚ)) (k1 k2 : String) :
    Decidable (missingPair r2 k1 k2) := by
  unfold missingPair
  infer_instance

/-- `MetricsService._calculate_forecast_metrics`: YFinance forecasts
first, FMP fallback when a member of either growth pair is missing (the
fallback overwrites both members of both pairs where it succeeds). -/
def calcForecastMetrics (ef rf : Option Forecast)
    (fmpData : Option (List EstRecord)) (currentYear : ℤ) :
    List (String × ℚ) :=
  let r2 := forecastTier1 ef rf
  if isValidList fmpData ∧
      (missingPair r2 "current_year_eps_growth" "next_year_eps_growth" ∨
       missingPair r2 "current_year_revenue_growth"
         "next_year_revenue_growth") then
    dictUpdate r2 (calcFmpGrowthMetrics (fmpData.getD []) currentYear)
  else r2

/-- Stage 1 of `get_metrics`: merge the basic metrics and the stock-info
fields when stock info was fetched. -/
def stage1 (ticker : String) (stockInfo : Option StockInfo) :
    List (String × PVal) :=
  match stockInfo with
  | some si => dictUpdate (dictUpdate (initResult ticker)
      (calcBasicMetrics si)) (extractStockInfoFields si)
  | none => initResult ticker

/-- Stage 2 of `get_metrics`: merge the FMP metrics when both the FMP
list and stock info are valid. -/
def stage2 (r1 : List (String × PVal)) (stockInfo : Option StockInfo)
    (fmpData : Option (List EstRecord)) (fmpRefetched : List EstRecord)
    (currentYear : ℤ) : List (String × PVal) :=
  match stockInfo with
  | some si =>
    if isValidList fmpData then
      dictUpdate r1 (calcFmpMetrics currentYear si fmpRefetched)
    else r1
  | none => r1

/-- Stage 3 of `get_metrics`: merge the forecast metrics (the
`forecast_data` dictionary is always truthy, so this step always runs). -/
def stage3 (r2 : List (String × PVal)) (ef rf : Option Forecast)
    (fmpData : Option (List EstRecord)) (currentYear : ℤ) :
    List (String × PVal) :=
  dictUpdate r2
    ((calcForecastMetrics ef rf fmpData currentYear).map
      (fun kv => (kv.1, PVal.num kv.2)))

/-- Stage 4 of `get_metrics`: the derived forward P/S assignment, only
under stock info, a non-`None` revenue forecast and a truthy result. -/
def stage4 (r3 : List (String × PVal)) (stockInfo : Option StockInfo)
    (rf : Option Forecast) : List (String × PVal) :=
  match stockInfo, rf with
  | some si, some rfFrame =>
    let forwardPs := getForwardPsRatio si (some rfFrame)
    if truthyOpt forwardPs then
      dictSet r3 "forward_ps_ratio" (PVal.num (forwardPs.getD 0))
    else r3
  | _, _ => r3

/-- `MetricsService.get_metrics` over already-fetched inputs (`.upper()`
on the ASCII ticker is `String.toUpper`). -/
def getMetrics (ticker : String) (stockInfo : Option StockInfo)
    (fmpData : Option (List EstRecord)) (ef rf : Option Forecast)
    (fmpRefetched : List EstRecord) (currentYear : ℤ) :
    List (String × PVal) :=
  stage4
    (stage3 (stage2 (stage1 ticker stockInfo) stockInfo fmpData
      fmpRefetched currentYear) ef rf fmpData currentYear)
    stockInfo rf

/-! ## Supporting lemmas -/

theorem getQuartersElapsedInYear_le_four (asOfYear : ℤ) (asOfMonth : ℕ)
    (targetYear : ℤ) :
    getQuartersElapsedInYear asOfYear asOfMonth targetYear ≤ 4 := by
  unfold getQuartersElapsedInYear
  split_ifs <;> omega

theorem lookup_append {β : Type} (k : String) (l₁ l₂ : List (String × β)) :
    List.lookup k (l₁ ++ l₂) =
      (List.lookup k l₁).orElse (fun _ => List.lookup k l₂) := by
  induction l₁ with
  | nil => simp [List.lookup]
  | cons kv rest ih =>
    by_cases h : k == kv.1 <;>
      simp [List.lookup, h, ih, Option.orElse]

theorem extract_foldl_eq_none (metric : EstRecord → Option ℚ)
    (y : String) :
    ∀ (data : List EstRecord) (acc : String → Option ℚ),
      (∀ r ∈ data, r.date ≠ "" → yearKey r.date = y → metric r = none) →
      acc y = none →
      (data.foldl (extractStep metric) acc) y = none := by
  intro data
  induction data with
  | nil => intro acc _ hacc; simpa using hacc
  | cons r rest ih =>
    intro acc h hacc
    simp only [List.foldl_cons]
    apply ih
    · intro r' hr'; exact h r' (List.mem_cons_of_mem _ hr')
    · unfold extractStep
      by_cases hc : r.date ≠ "" ∧ yearKey r.date = y ∧ (metric r).isSome
      · have hnone := h r (List.mem_cons_self r rest) hc.1 hc.2.1
        rw [hnone] at hc
        simp at hc
      · rw [if_neg hc]; exact hacc

theorem extract_foldl_eq_some (metric : EstRecord → Option ℚ)
    (y : String) :
    ∀ (data : List EstRecord) (acc : String → Option ℚ) (v : ℚ),
      (data.foldl (extractStep metric) acc) y = some v →
      (∃ r ∈ data, r.date ≠ "" ∧ yearKey r.date = y ∧ metric r = some v) ∨
        acc y = some v := by
  intro data
  induction data with
  | nil => intro acc v h; right; simpa using h
  | cons r rest ih =>
    intro acc v h
    simp only [List.foldl_cons] at h
    rcases ih _ v h with ⟨r', hr', hprop⟩ | hacc
    · exact Or.inl ⟨r', List.mem_cons_of_mem _ hr', hprop⟩
    · unfold extractStep at hacc
      by_cases hc : r.date ≠ "" ∧ yearKey r.date = y ∧ (metric r).isSome
      · refine Or.inl ⟨r, List.mem_cons_self r rest, hc.1, hc.2.1, ?_⟩
        rw [if_pos hc] at hacc; exact hacc
      · rw [if_neg hc] at hacc; exact Or.inr hacc

theorem lookup_map_update {β : Type} (k : String)
    (patch : List (String × β)) :
    ∀ (base : List (String × β)) (v : β), List.lookup k base = some v →
      List.lookup k (base.map (fun kv =>
        match List.lookup kv.1 patch with
        | some w => (kv.1, w)
        | none => kv)) = some ((List.lookup k patch).getD v) := by
  intro base
  induction base with
  | nil => intro v h; simp [List.lookup] at h
  | cons kv rest ih =>
    obtain ⟨k₀, v₀⟩ := kv
    intro v h
    by_cases hk : k = k₀
    · subst hk
      simp only [List.lookup, beq_self_eq_true, Option.some.injEq] at h
      cases hp : List.lookup k patch with
      | some w => simp [List.lookup, hp]
      | none => simp [List.lookup, hp, h]
    · have hbeq : (k == k₀) = false := beq_eq_false_iff_ne.mpr hk
      simp only [List.lookup, hbeq] at h
      cases hp : List.lookup k₀ patch with
      | some w => simpa [List.lookup, hbeq, hp] using ih v h
      | none => simpa [List.lookup, hbeq, hp] using ih v h

theorem lookup_dictUpdate {β : Type} (k : String)
    (base patch : List (String × β)) (v : β)
    (h : List.lookup k base = some v) :
    List.lookup k (dictUpdate base patch) =
      some ((List.lookup k patch).getD v) := by
  unfold dictUpdate
  rw [lookup_append, lookup_map_update k patch base v h]
  rfl

theorem lookup_eq_none_of_keys {β : Type} (k : String)
    (l : List (String × β)) (h : ∀ kv ∈ l, kv.1 ≠ k) :
    List.lookup k l = none := by
  induction l with
  | nil => rfl
  | cons kv rest ih =>
    obtain ⟨k₀, v₀⟩ := kv
    have hne : k₀ ≠ k := h _ (List.mem_cons_self _ _)
    have hbeq : (k == k₀) = false := beq_eq_false_iff_ne.mpr (Ne.symm hne)
    simp only [List.lookup, hbeq]
    exact ih (fun kv hkv => h kv (List.mem_cons_of_mem _ hkv))

theorem lookup_map_num {β γ : Type} (g : β → γ) (k : String) :
    ∀ l : List (String × β),
      List.lookup k (l.map (fun kv => (kv.1, g kv.2))) =
        (List.lookup k l).map g := by
  intro l
  induction l with
  | nil => rfl
  | cons kv rest ih =>
    obtain ⟨k₀, v₀⟩ := kv
    by_cases hk : k = k₀
    · subst hk; simp [List.lookup]
    · have hbeq : (k == k₀) = false := beq_eq_false_iff_ne.mpr hk
      simp [List.lookup, hbeq, ih]

theorem keys_dictUpdate {β : Type} (base patch : List (String × β))
    (h : ∀ kv ∈ patch, (List.lookup kv.1 base).isSome) :
    (dictUpdate base patch).map Prod.fst = base.map Prod.fst := by
  unfold dictUpdate
  have h1 : patch.filter (fun kv => (List.lookup kv.1 base).isNone) = [] := by
    rw [List.filter_eq_nil_iff]
    intro kv hkv
    obtain ⟨w, hw⟩ := Option.isSome_iff_exists.mp (h kv hkv)
    simp [hw]
  rw [List.map_append, h1]
  simp only [List.map_nil, List.append_nil, List.map_map]
  apply List.map_congr_left
  intro kv _
  obtain ⟨k₀, v₀⟩ := kv
  cases hp : List.lookup k₀ patch <;> simp [hp]

theorem mem_dictUpdate_keys {β : Type} (base patch : List (String × β))
    (kv : String × β) (h : kv ∈ dictUpdate base patch) :
    kv.1 ∈ base.map Prod.fst ∨ kv.1 ∈ patch.map Prod.fst := by
  unfold dictUpdate at h
  rcases List.mem_append.mp h with h | h
  · obtain ⟨kv₀, hkv₀, heq⟩ := List.mem_map.mp h
    left
    obtain ⟨k₀, v₀⟩ := kv₀
    cases hp : List.lookup k₀ patch <;>
      · rw [hp] at heq
        simp only at heq
        subst heq
        exact List.mem_map.mpr ⟨_, hkv₀, rfl⟩
  · exact Or.inr (List.mem_map.mpr ⟨kv, List.mem_of_mem_filter h, rfl⟩)

theorem mem_condEntry_key {β : Type} (k : String) (o : Option ℚ)
    (mk : ℚ → β) (kv : String × β) (h : kv ∈ condEntry k o mk) :
    kv.1 = k := by
  unfold condEntry at h
  split_ifs at h
  · rcases List.mem_singleton.mp h with rfl; rfl
  · exact absurd h (List.not_mem_nil _)

theorem mem_yoyEntry_key (k : String) (mCur mPrev : Option ℚ)
    (kv : String × ℚ) (h : kv ∈ yoyEntry k mCur mPrev) : kv.1 = k := by
  cases mCur with
  | none => simp [yoyEntry] at h
  | some cur =>
    cases mPrev with
    | none => simp [yoyEntry] at h
    | some prev =>
      by_cases hz : prev ≠ 0
      · simp only [yoyEntry, if_pos hz] at h
        rcases List.mem_singleton.mp h with rfl; rfl
      · simp [yoyEntry, hz] at h

/-- The four panel keys the forecast-metrics step may write. -/
def forecastKeys : List String :=
  ["current_year_eps_growth", "next_year_eps_growth",
   "current_year_revenue_growth", "next_year_revenue_growth"]

theorem calcFmpGrowthMetrics_keys (fmpList : List EstRecord)
    (currentYear : ℤ) (kv : String × ℚ)
    (h : kv ∈ calcFmpGrowthMetrics fmpList currentYear) :
    kv.1 ∈ forecastKeys := by
  unfold calcFmpGrowthMetrics at h
  simp only [List.mem_append] at h
  rcases h with ((h | h) | h) | h <;>
    rw [mem_yoyEntry_key _ _ _ _ h] <;> simp [forecastKeys]

theorem forecastTier1_keys (ef rf : Option Forecast) (kv : String × ℚ)
    (h : kv ∈ forecastTier1 ef rf) : kv.1 ∈ forecastKeys := by
  unfold forecastTier1 at h
  rcases List.mem_append.mp h with hkw | hkw <;> split_ifs at hkw <;>
    first
      | exact absurd hkw (List.not_mem_nil _)
      | (rcases List.mem_append.mp hkw with hkw | hkw <;>
          rw [mem_condEntry_key _ _ _ _ hkw] <;> simp [forecastKeys])

theorem calcForecastMetrics_keys (ef rf : Option Forecast)
    (fmpData : Option (List EstRecord)) (currentYear : ℤ)
    (kv : String × ℚ)
    (h : kv ∈ calcForecastMetrics ef rf fmpData currentYear) :
    kv.1 ∈ forecastKeys := by
  unfold calcForecastMetrics at h
  dsimp only at h
  split_ifs at h
  · rcases mem_dictUpdate_keys _ _ _ h with hm | hm
    · obtain ⟨kw, hkw, hk⟩ := List.mem_map.mp hm
      exact hk ▸ forecastTier1_keys ef rf kw hkw
    · obtain ⟨kw, hkw, hk⟩ := List.mem_map.mp hm
      exact hk ▸ calcFmpGrowthMetrics_keys _ _ kw hkw
  · exact forecastTier1_keys ef rf kv h

theorem lookup_forecast_patch_none (k : String) (hk : k ∉ forecastKeys)
    (ef rf : Option Forecast) (fmpData : Option (List EstRecord))
    (currentYear : ℤ) :
    List.lookup k
      ((calcForecastMetrics ef rf fmpData currentYear).map
        (fun kv => (kv.1, PVal.num kv.2))) = none := by
  rw [lookup_map_num]
  rw [lookup_eq_none_of_keys k _ (fun kv hkv hek =>
    hk (hek ▸ calcForecastMetrics_keys ef rf fmpData currentYear kv hkv))]
  rfl

theorem lookup_forecast_patch_key (k : String)
    (ef rf : Option Forecast) (fmpData : Option (List EstRecord))
    (currentYear : ℤ) :
    List.lookup k
      ((calcForecastMetrics ef rf fmpData currentYear).map
        (fun kv => (kv.1, PVal.num kv.2))) =
      (List.lookup k (calcForecastMetrics ef rf fmpData currentYear)).map
        PVal.num :=
  lookup_map_num _ _ _

/-- The stable key set of the metrics panel, in source order. -/
def panelKeys : List String :=
  ["ttm_pe", "forward_pe", "two_year_forward_pe", "ttm_eps_growth",
   "current_year_eps_growth", "next_year_eps_growth", "ttm_revenue_growth",
   "current_year_revenue_growth", "next_year_revenue_growth",
   "gross_margin", "net_margin", "ttm_ps_ratio", "forward_ps_ratio",
   "ticker", "price", "market_cap"]

theorem lookup_isSome_iff {β : Type} (k : String) (l : List (String × β)) :
    (List.lookup k l).isSome ↔ k ∈ l.map Prod.fst := by
  induction l with
  | nil => simp [List.lookup]
  | cons kv rest ih =>
    obtain ⟨k₀, v₀⟩ := kv
    by_cases hk : k = k₀
    · subst hk; simp [List.lookup]
    · have hbeq : (k == k₀) = false := beq_eq_false_iff_ne.mpr hk
      simp [List.lookup, hbeq, ih, hk]

theorem mem_calcFmpMetrics_key (currentYear : ℤ) (si : StockInfo)
    (fmpRefetched : List EstRecord) (kv : String × PVal)
    (h : kv ∈ calcFmpMetrics currentYear si fmpRefetched) :
    kv.1 = "two_year_forward_pe" := by
  unfold calcFmpMetrics at h
  split_ifs at h
  · exact mem_condEntry_key _ _ _ _ h
  · exact absurd h (List.not_mem_nil _)

theorem lookup_stage2_of_ne (k : String) (hk : k ≠ "two_year_forward_pe")
    (r1 : List (String × PVal)) (stockInfo : Option StockInfo)
    (fmpData : Option (List EstRecord)) (fmpRefetched : List EstRecord)
    (currentYear : ℤ) (v : PVal) (h : List.lookup k r1 = some v) :
    List.lookup k (stage2 r1 stockInfo fmpData fmpRefetched currentYear) =
      some v := by
  cases stockInfo with
  | none => exact h
  | some si =>
    unfold stage2
    split_ifs with hv
    · rw [lookup_dictUpdate k r1 _ v h,
        lookup_eq_none_of_keys k _ (fun kv hkv => by
          rw [mem_calcFmpMetrics_key currentYear si fmpRefetched kv hkv]
          exact Ne.symm hk)]
      rfl
    · exact h

theorem lookup_stage3_of_ne (k : String) (hk : k ∉ forecastKeys)
    (r2 : List (String × PVal)) (ef rf : Option Forecast)
    (fmpData : Option (List EstRecord)) (currentYear : ℤ) (v : PVal)
    (h : List.lookup k r2 = some v) :
    List.lookup k (stage3 r2 ef rf fmpData currentYear) = some v := by
  unfold stage3
  rw [lookup_dictUpdate k r2 _ v h,
    lookup_forecast_patch_none k hk ef rf fmpData currentYear]
  rfl

theorem lookup_stage3_forecast (k : String) (r2 : List (String × PVal))
    (ef rf : Option Forecast) (fmpData : Option (List EstRecord))
    (currentYear : ℤ) (h : List.lookup k r2 = some PVal.absent) :
    List.lookup k (stage3 r2 ef rf fmpData currentYear) =
      some (((List.lookup k
        (calcForecastMetrics ef rf fmpData currentYear)).map
          PVal.num).getD PVal.absent) := by
  unfold stage3
  rw [lookup_dictUpdate k r2 _ _ h,
    lookup_forecast_patch_key k ef rf fmpData currentYear]

theorem lookup_stage4_of_ne (k : String) (hk : k ≠ "forward_ps_ratio")
    (r3 : List (String × PVal)) (stockInfo : Option StockInfo)
    (rf : Option Forecast) (v : PVal) (h : List.lookup k r3 = some v) :
    List.lookup k (stage4 r3 stockInfo rf) = some v := by
  cases stockInfo with
  | none => cases rf <;> exact h
  | some si =>
    cases rf with
    | none => exact h
    | some f =>
      unfold stage4
      dsimp only
      split_ifs with ht
      · unfold dictSet
        rw [lookup_dictUpdate k r3 _ v h,
          lookup_eq_none_of_keys k _ (fun kv hkv => by
            rcases List.mem_singleton.mp hkv with rfl
            exact Ne.symm hk)]
        rfl
      · exact h

theorem lookup_stage4_forward_ps (r3 : List (String × PVal))
    (stockInfo : Option StockInfo) (rf : Option Forecast)
    (h : List.lookup "forward_ps_ratio" r3 = some PVal.absent) :
    List.lookup "forward_ps_ratio" (stage4 r3 stockInfo rf) =
      some (match stockInfo, rf with
        | some si, some f =>
          if truthyOpt (getForwardPsRatio si (some f)) then
            PVal.num ((getForwardPsRatio si (some f)).getD 0)
          else PVal.absent
        | _, _ => PVal.absent) := by
  cases stockInfo with
  | none => cases rf <;> exact h
  | some si =>
    cases rf with
    | none => exact h
    | some f =>
      unfold stage4
      dsimp only
      split_ifs with ht
      · unfold dictSet
        rw [lookup_dictUpdate _ r3 _ _ h]
        simp [List.lookup, ht]
      · simp [ht, h]

theorem keys_stage2 (r1 : List (String × PVal))
    (stockInfo : Option StockInfo) (fmpData : Option (List EstRecord))
    (fmpRefetched : List EstRecord) (currentYear : ℤ)
    (h : r1.map Prod.fst = panelKeys) :
    (stage2 r1 stockInfo fmpData fmpRefetched currentYear).map Prod.fst =
      panelKeys := by
  cases stockInfo with
  | none => exact h
  | some si =>
    unfold stage2
    split_ifs
    · rw [keys_dictUpdate _ _ (fun kv hkv => by
        rw [lookup_isSome_iff, h,
          mem_calcFmpMetrics_key currentYear si fmpRefetched kv hkv]
        decide)]
      exact h
    · exact h

theorem keys_stage3 (r2 : List (String × PVal)) (ef rf : Option Forecast)
    (fmpData : Option (List EstRecord)) (currentYear : ℤ)
    (h : r2.map Prod.fst = panelKeys) :
    (stage3 r2 ef rf fmpData currentYear).map Prod.fst = panelKeys := by
  unfold stage3
  rw [keys_dictUpdate _ _ (fun kv hkv => by
    obtain ⟨kw, hkw, hkeq⟩ := List.mem_map.mp hkv
    rw [lookup_isSome_iff, h, ← hkeq]
    have hfk : kw.1 ∈ forecastKeys :=
      calcForecastMetrics_keys ef rf fmpData currentYear kw hkw
    simp only [forecastKeys, List.mem_cons, List.mem_singleton,
      List.not_mem_nil, or_false] at hfk
    rcases hfk with h1 | h1 | h1 | h1 <;> rw [h1] <;> decide)]
  exact h

theorem keys_stage4 (r3 : List (String × PVal))
    (stockInfo : Option StockInfo) (rf : Option Forecast)
    (h : r3.map Prod.fst = panelKeys) :
    (stage4 r3 stockInfo rf).map Prod.fst = panelKeys := by
  cases stockInfo with
  | none => cases rf <;> exact h
  | some si =>
    cases rf with
    | none => exact h
    | some f =>
      unfold stage4
      dsimp only
      split_ifs
      · unfold dictSet
        rw [keys_dictUpdate _ _ (fun kv hkv => by
          rcases List.mem_singleton.mp hkv with rfl
          rw [lookup_isSome_iff, h]
          show "forward_ps_ratio" ∈ panelKeys
          decide)]
        exact h
      · exact h

/-! ## Claims -/

/-- C1: For every quarterly-actuals list, estimates list, and target year
(for every explicit as-of date standing in for the ambient
`datetime.now()`), the aggregate returned by
`CurrentYearCalculator.calculate_hybrid_current_year` satisfies
`hybrid_eps == actual_eps + estimated_eps`,
`hybrid_revenue == actual_revenue + estimated_revenue`, and
`quarters_elapsed + quarters_remaining == 4`; and when
`quarters_elapsed == 0` the actual contribution is exactly zero. -/
theorem hybrid_current_year_invariants (quarterlyData : List QRecord)
    (estimatesData : List EstRecord) (targetYear asOfYear : ℤ)
    (asOfMonth : ℕ) :
    (calculateHybridCurrentYear quarterlyData estimatesData targetYear
        asOfYear asOfMonth).hybridEps =
      (calculateHybridCurrentYear quarterlyData estimatesData targetYear
        asOfYear asOfMonth).actualEps +
      (calculateHybridCurrentYear quarterlyData estimatesData targetYear
        asOfYear asOfMonth).estimatedEps ∧
    (calculateHybridCurrentYear quarterlyData estimatesData targetYear
        asOfYear asOfMonth).hybridRevenue =
      (calculateHybridCurrentYear quarterlyData estimatesData targetYear
        asOfYear asOfMonth).actualRevenue +
      (calculateHybridCurrentYear quarterlyData estimatesData targetYear
        asOfYear asOfMonth).estimatedRevenue ∧
    (calculateHybridCurrentYear quarterlyData estimatesData targetYear
        asOfYear asOfMonth).quartersElapsed +
      (calculateHybridCurrentYear quarterlyData estimatesData targetYear
        asOfYear asOfMonth).quartersRemaining = 4 ∧
    ((calculateHybridCurrentYear quarterlyData estimatesData targetYear
        asOfYear asOfMonth).quartersElapsed = 0 →
      (calculateHybridCurrentYear quarterlyData estimatesData targetYear
        asOfYear asOfMonth).actualEps = 0 ∧
      (calculateHybridCurrentYear quarterlyData estimatesData targetYear
        asOfYear asOfMonth).actualRevenue = 0) := by
  have hle := getQuartersElapsedInYear_le_four asOfYear asOfMonth targetYear
  refine ⟨rfl, rfl, ?_, ?_⟩
  · simp only [calculateHybridCurrentYear]
    omega
  · intro h
    simp only [calculateHybridCurrentYear] at h ⊢
    rw [h]
    simp

/-- Witness for C1 at a concrete input: a future target year has zero
elapsed quarters, and the actual contribution is exactly zero there. -/
theorem hybrid_current_year_invariants_witness :
    (calculateHybridCurrentYear [⟨"2026-03-31", some 1, some 5⟩] []
      2026 2025 8).actualEps = 0 ∧
    (calculateHybridCurrentYear [⟨"2026-03-31", some 1, some 5⟩] []
      2026 2025 8).actualRevenue = 0 :=
  (hybrid_current_year_invariants [⟨"2026-03-31", some 1, some 5⟩] []
      2026 2025 8).2.2.2
    (by norm_num [calculateHybridCurrentYear, getQuartersElapsedInYear])

/-- C2 (counterexample): the claim asserts that the growth of
`(current=90, previous=-100)` is `-190.0`; the code's sign-neutralized
formula yields `+190.0` there
(`(90 − (−100)) / abs(−100) × 100 = 190`). -/
theorem growth_negative_previous_counterexample :
    calculateGrowthPercentage 90 (-100) = some 190 ∧
    calculateGrowthPercentage 90 (-100) ≠ some (-190) := by
  constructor <;>
    norm_num [calculateGrowthPercentage, PERCENTAGE_MULTIPLIER]

/-- C2 (amended): for every pair `(current, previous)` with
`previous ≠ 0`, `GrowthCalculator._calculate_growth_percentage` returns
`(current − previous) / abs(previous) × 100`; in particular
`(110, 100)` yields `10.0` and `(90, -100)` yields `+190.0`
(the sign-neutralized denominator keeps the swing from `-100` to `90`
positive). -/
theorem growth_percentage_formula (current previous : ℚ)
    (h : previous ≠ 0) :
    calculateGrowthPercentage current previous =
      some ((current - previous) / |previous| * 100) ∧
    calculateGrowthPercentage 110 100 = some 10 ∧
    calculateGrowthPercentage 90 (-100) = some 190 := by
  refine ⟨?_, ?_, ?_⟩ <;>
    norm_num [calculateGrowthPercentage, PERCENTAGE_MULTIPLIER, h]

/-- Witness for C2's amended theorem at `(110, 100)`. -/
theorem growth_percentage_formula_witness :
    calculateGrowthPercentage 110 100 = some ((110 - 100) / |(100 : ℚ)| * 100) :=
  (growth_percentage_formula 110 100 (by norm_num)).1

/-- C3 (counterexample): with empty record lists the previous-year
aggregate is zero, and
`CurrentYearCalculator.calculate_current_year_growth_rates` returns a
*success* result carrying the numeric value `0.0` for both growth
metrics — not the failure result the claim demands. -/
theorem zero_previous_growth_counterexample :
    (calculateActualPreviousYear [] 2024).hybridEps = 0 ∧
    (calculateActualPreviousYear [] 2024).hybridRevenue = 0 ∧
    (calculateCurrentYearGrowthRates [] [] 2025 2024 2025 8).epsGrowth =
      MetricResult.success 0 ∧
    (calculateCurrentYearGrowthRates [] [] 2025 2024 2025 8).revenueGrowth =
      MetricResult.success 0 ∧
    ((calculateCurrentYearGrowthRates [] [] 2025 2024 2025 8)
      ).epsGrowth.isSuccess = true := by
  refine ⟨?_, ?_, ?_, ?_, ?_⟩ <;>
    norm_num +decide [calculateCurrentYearGrowthRates,
      calculateActualPreviousYear, calculateHybridCurrentYear,
      getActualQuartersData, getEstimatedQuartersData,
      getQuartersElapsedInYear, createSuccessResult, roundTo, bankersRound,
      Int.fract, GROWTH_PRECISION, MetricResult.isSuccess]

/-- C3 (amended): the simple growth calculator
(`GrowthCalculator.calculate_simple_growth`) does return a failure result
carrying no numeric value whenever the previous value is zero (or `None`,
or negative — it is validated as a positive number); but the hybrid
current-year growth path returns a *success* result with value `0.0`
whenever the previous-year aggregate sums to zero, for the affected
metric. -/
theorem zero_previous_growth_behavior (current : Option ℚ)
    (quarterlyData : List QRecord) (estimatesData : List EstRecord)
    (currentYear previousYear asOfYear : ℤ) (asOfMonth : ℕ)
    (hEps : (calculateActualPreviousYear quarterlyData
      previousYear).hybridEps = 0)
    (hRev : (calculateActualPreviousYear quarterlyData
      previousYear).hybridRevenue = 0) :
    (∀ prev : Option ℚ, ¬ validatePositiveNumber prev →
      ∃ msg, calculateSimpleGrowth current prev = MetricResult.failure msg) ∧
    ¬ (calculateSimpleGrowth current (some 0)).isSuccess ∧
    (calculateCurrentYearGrowthRates quarterlyData estimatesData
      currentYear previousYear asOfYear asOfMonth).epsGrowth =
      MetricResult.success 0 ∧
    (calculateCurrentYearGrowthRates quarterlyData estimatesData
      currentYear previousYear asOfYear asOfMonth).revenueGrowth =
      MetricResult.success 0 := by
  refine ⟨?_, ?_, ?_, ?_⟩
  · intro prev hprev
    unfold calculateSimpleGrowth
    by_cases hc : validatePositiveNumber current
    · simp [hc, hprev, createFailureResult]
    · simp [hc, createFailureResult]
  · have h0 : validatePositiveNumber (some (0 : ℚ)) = false := by
      simp [validatePositiveNumber]
    by_cases hc : validatePositiveNumber current = true <;>
      simp [calculateSimpleGrowth, hc, h0, createFailureResult,
        MetricResult.isSuccess]
  · simp only [calculateCurrentYearGrowthRates, hEps]
    norm_num [createSuccessResult, roundTo, bankersRound, Int.fract,
      GROWTH_PRECISION]
  · simp only [calculateCurrentYearGrowthRates, hRev]
    norm_num [createSuccessResult, roundTo, bankersRound, Int.fract,
      GROWTH_PRECISION]

/-- Witness for C3's amended theorem: empty lists give a zero
previous-year aggregate; the simple calculator fails on a zero previous
value while the hybrid path reports success `0.0`. -/
theorem zero_previous_growth_behavior_witness :
    ¬ (calculateSimpleGrowth (some 5) (some 0)).isSuccess ∧
    (calculateCurrentYearGrowthRates [] [] 2025 2024 2025 8).epsGrowth =
      MetricResult.success 0 := by
  have h := zero_previous_growth_behavior (some 5) [] [] 2025 2024 2025 8
    (by norm_num [calculateActualPreviousYear, getActualQuartersData])
    (by norm_num [calculateActualPreviousYear, getActualQuartersData])
  exact ⟨h.2.1, h.2.2.1⟩

/-- C6: for every target year and explicit as-of date,
`CurrentYearCalculator.get_quarters_elapsed_in_year` returns 0 for a
future target year, 4 for a strictly past one, and otherwise buckets the
as-of month: 1–3 ↦ 0, 4–6 ↦ 1, 7–9 ↦ 2, 10–12 ↦ 3. -/
theorem quarters_elapsed_in_year_spec (asOfYear : ℤ) (asOfMonth : ℕ)
    (targetYear : ℤ) :
    (asOfYear < targetYear →
      getQuartersElapsedInYear asOfYear asOfMonth targetYear = 0) ∧
    (targetYear < asOfYear →
      getQuartersElapsedInYear asOfYear asOfMonth targetYear = 4) ∧
    (targetYear = asOfYear →
      ((1 ≤ asOfMonth ∧ asOfMonth ≤ 3) →
        getQuartersElapsedInYear asOfYear asOfMonth targetYear = 0) ∧
      ((4 ≤ asOfMonth ∧ asOfMonth ≤ 6) →
        getQuartersElapsedInYear asOfYear asOfMonth targetYear = 1) ∧
      ((7 ≤ asOfMonth ∧ asOfMonth ≤ 9) →
        getQuartersElapsedInYear asOfYear asOfMonth targetYear = 2) ∧
      ((10 ≤ asOfMonth ∧ asOfMonth ≤ 12) →
        getQuartersElapsedInYear asOfYear asOfMonth targetYear = 3)) := by
  unfold getQuartersElapsedInYear
  refine ⟨fun h => ?_, fun h => ?_, fun h => ⟨fun hm => ?_, fun hm => ?_,
    fun hm => ?_, fun hm => ?_⟩⟩ <;> split_ifs <;> omega

/-- Witness for C6 at concrete dates: as of 2025-08, the year 2026 has 0
elapsed quarters, 2024 has 4, and 2025 has 2. -/
theorem quarters_elapsed_in_year_spec_witness :
    getQuartersElapsedInYear 2025 8 2026 = 0 ∧
    getQuartersElapsedInYear 2025 8 2024 = 4 ∧
    getQuartersElapsedInYear 2025 8 2025 = 2 :=
  ⟨(quarters_elapsed_in_year_spec 2025 8 2026).1 (by norm_num),
   (quarters_elapsed_in_year_spec 2025 8 2024).2.1 (by norm_num),
   ((quarters_elapsed_in_year_spec 2025 8 2025).2.2 rfl).2.2.1
     (by norm_num)⟩

/-- C4: `get_estimated_quarters_data` prefers the summed quarterly
estimates for the year whenever they are positive; when the summed
quarterly estimates are all zero it returns the first annual estimate
record for that year divided by 4 and scaled by `n` (annual `8.0` with
`n = 2` gives `4.0`); and the all-quarters variant
`get_all_estimated_quarters_data` returns the annual value directly,
without scaling, in its fallback. -/
theorem estimated_quarters_fallback :
    (∀ (est : List EstRecord) (ty : ℤ) (n : ℕ), est ≠ [] → n ≠ 0 →
      (0 < (getQuarterlyEstimates est ty n).1 ∨
        0 < (getQuarterlyEstimates est ty n).2) →
      getEstimatedQuartersData est ty n = getQuarterlyEstimates est ty n) ∧
    (∀ (est : List EstRecord) (ty : ℤ) (n : ℕ) (e : EstRecord),
      est ≠ [] → n ≠ 0 →
      getQuarterlyEstimates est ty n = (0, 0) →
      findAnnualEstimate est ty = some e →
      getEstimatedQuartersData est ty n =
        (e.estimatedEpsAvg.getD 0 / 4 * n,
         e.estimatedRevenueAvg.getD 0 / 4 * n)) ∧
    getEstimatedQuartersData
      [⟨"2024-01-15", some 8, some 400, none⟩,
       ⟨"2024-09-30", some 0, some 0, none⟩,
       ⟨"2024-12-31", some 0, some 0, none⟩] 2024 2 = (4, 200) ∧
    (∀ (est : List EstRecord) (ty : ℤ) (e : EstRecord), est ≠ [] →
      getQuarterlyEstimates est ty 4 = (0, 0) →
      findAnnualEstimate est ty = some e →
      getAllEstimatedQuartersData est ty =
        (e.estimatedEpsAvg.getD 0, e.estimatedRevenueAvg.getD 0)) := by
  refine ⟨?_, ?_, ?_, ?_⟩
  · intro est ty n hne hn hpos
    unfold getEstimatedQuartersData
    rw [if_neg (by simp [hne, hn]), if_pos hpos]
  · intro est ty n e hne hn hq hfind
    simp [getEstimatedQuartersData, hne, hn, hq, getAnnualEstimatesScaled,
      hfind]
  · norm_num +decide [getEstimatedQuartersData, getQuarterlyEstimates,
      getAnnualEstimatesScaled, findAnnualEstimate, filterByYearBy,
      parseYearInt, sumField, List.insertionSort, List.orderedInsert,
      descOn, List.filterMap_cons, List.sum_cons]
  · intro est ty e hne hq hfind
    simp [getAllEstimatedQuartersData, hne, hq, hfind]

/-- Witness for C4: on a concrete list whose two most recent 2024
estimate records are zero while the first record carries the annual
estimate `8.0`, two remaining quarters yield the scaled contribution
`(8/4 × 2, 400/4 × 2) = (4, 200)`. -/
theorem estimated_quarters_fallback_witness :
    getEstimatedQuartersData
      [⟨"2024-01-15", some 8, some 400, none⟩,
       ⟨"2024-09-30", some 0, some 0, none⟩,
       ⟨"2024-12-31", some 0, some 0, none⟩] 2024 2 =
      ((8 : ℚ) / 4 * 2, (400 : ℚ) / 4 * 2) := by
  have h := estimated_quarters_fallback.2.1
    [⟨"2024-01-15", some 8, some 400, none⟩,
     ⟨"2024-09-30", some 0, some 0, none⟩,
     ⟨"2024-12-31", some 0, some 0, none⟩] 2024 2
    ⟨"2024-01-15", some 8, some 400, none⟩
    (by simp) (by norm_num)
    (by norm_num +decide [getQuarterlyEstimates, filterByYearBy,
      parseYearInt, sumField, List.insertionSort, List.orderedInsert,
      descOn, List.filterMap_cons, List.sum_cons])
    (by norm_num +decide [findAnnualEstimate, parseYearInt])
  simpa using h

/-- C5 (counterexample): with exactly 7 quarters of history, the TTM
calculator omits the `ttm_eps_growth` and `ttm_revenue_growth` keys from
its result mapping entirely — it does not return failure `MetricResult`s
for them. -/
theorem ttm_growth_seven_quarters_counterexample :
    (List.replicate 7
      (⟨some 100, some 40, some 10, some 1⟩ : QuarterlyData)).length = 7 ∧
    List.lookup TTM_EPS_GROWTH_KEY
      (ttmCalculate ⟨List.replicate 7 ⟨some 100, some 40, some 10, some 1⟩,
        some 50, some 1000⟩) = none ∧
    List.lookup TTM_REVENUE_GROWTH_KEY
      (ttmCalculate ⟨List.replicate 7 ⟨some 100, some 40, some 10, some 1⟩,
        some 50, some 1000⟩) = none := by
  refine ⟨by decide, by decide, by decide⟩

/-- C5 (amended): with fewer than 4 quarters every TTM metric —
including both TTM growth metrics — is a failure result carrying the
minimum-data-count message; with 4 to 7 quarters the two TTM growth keys
are *absent* from the calculator's result mapping (not failure results);
with at least 8 quarters the TTM growth results compare the sum of the
most recent 4 quarters against the sum of quarters 5–8. -/
theorem ttm_growth_window_behavior (inp : TTMCalculationInput) :
    (inp.quarterlyData.length < 4 →
      List.lookup TTM_EPS_GROWTH_KEY (ttmCalculate inp) =
        some (MetricResult.failure
          ("Insufficient quarterly data for TTM calculations (need 4, got "
            ++ toString inp.quarterlyData.length ++ ")")) ∧
      List.lookup TTM_REVENUE_GROWTH_KEY (ttmCalculate inp) =
        some (MetricResult.failure
          ("Insufficient quarterly data for TTM calculations (need 4, got "
            ++ toString inp.quarterlyData.length ++ ")"))) ∧
    (4 ≤ inp.quarterlyData.length → inp.quarterlyData.length < 8 →
      List.lookup TTM_EPS_GROWTH_KEY (ttmCalculate inp) = none ∧
      List.lookup TTM_REVENUE_GROWTH_KEY (ttmCalculate inp) = none) ∧
    (8 ≤ inp.quarterlyData.length →
      List.lookup TTM_EPS_GROWTH_KEY (ttmCalculate inp) =
        some (ttmCalculateGrowthRate
          (calculateTtmAggregates (inp.quarterlyData.take 4)).eps
          (calculateTtmAggregates ((inp.quarterlyData.drop 4).take 4)).eps
          "TTM EPS growth") ∧
      List.lookup TTM_REVENUE_GROWTH_KEY (ttmCalculate inp) =
        some (ttmCalculateGrowthRate
          (calculateTtmAggregates (inp.quarterlyData.take 4)).revenue
          (calculateTtmAggregates ((inp.quarterlyData.drop 4).take 4)).revenue
          "TTM revenue growth")) := by
  refine ⟨fun hlt => ?_, fun hge hlt => ?_, fun hge => ?_⟩
  · have h4 : inp.quarterlyData.length < MIN_QUARTERS_FOR_TTM := hlt
    have hfold : "Insufficient quarterly data for TTM calculations (need "
        ++ toString MIN_QUARTERS_FOR_TTM ++ ", got " =
        "Insufficient quarterly data for TTM calculations (need 4, got " :=
      by decide
    unfold ttmCalculate
    rw [if_pos h4]
    constructor <;>
      simp +decide [createAllFailureResults, createFailureResult,
        List.lookup, hfold, TTM_EPS_GROWTH_KEY, TTM_REVENUE_GROWTH_KEY,
        TTM_PE_KEY, TTM_PS_RATIO_KEY, GROSS_MARGIN_KEY, NET_MARGIN_KEY]
  · have h4 : ¬ inp.quarterlyData.length < MIN_QUARTERS_FOR_TTM := by
      simpa [MIN_QUARTERS_FOR_TTM] using hge
    have h8 : ¬ MIN_QUARTERS_FOR_GROWTH ≤ inp.quarterlyData.length := by
      simpa [MIN_QUARTERS_FOR_GROWTH] using hlt
    constructor <;>
      · simp only [ttmCalculate, if_neg h4, if_neg h8]
        rw [lookup_append, lookup_append, lookup_append]
        by_cases hp : truthyOpt inp.currentPrice <;>
          by_cases hm : truthyOpt inp.marketCap <;>
            simp +decide [hp, hm, calculateTtmMargins, List.lookup,
              TTM_EPS_GROWTH_KEY, TTM_REVENUE_GROWTH_KEY, TTM_PE_KEY,
              TTM_PS_RATIO_KEY, GROSS_MARGIN_KEY, NET_MARGIN_KEY,
              Option.orElse]
  · have h4 : ¬ inp.quarterlyData.length < MIN_QUARTERS_FOR_TTM := by
      simp only [MIN_QUARTERS_FOR_TTM]
      omega
    have h8 : MIN_QUARTERS_FOR_GROWTH ≤ inp.quarterlyData.length := hge
    constructor <;>
      · simp only [ttmCalculate, if_neg h4, if_pos h8]
        rw [lookup_append, lookup_append, lookup_append]
        by_cases hp : truthyOpt inp.currentPrice <;>
          by_cases hm : truthyOpt inp.marketCap <;>
            simp +decide [hp, hm, calculateTtmMargins,
              calculateTtmGrowthRates, List.lookup, QUARTERS_FOR_TTM,
              QUARTERS_FOR_COMPARISON, TTM_EPS_GROWTH_KEY,
              TTM_REVENUE_GROWTH_KEY, TTM_PE_KEY, TTM_PS_RATIO_KEY,
              GROSS_MARGIN_KEY, NET_MARGIN_KEY, Option.orElse]

/-- Witness for C5's amended theorem at 3-, 7- and 8-quarter inputs. -/
theorem ttm_growth_window_behavior_witness :
    List.lookup TTM_EPS_GROWTH_KEY
      (ttmCalculate ⟨List.replicate 3 ⟨some 100, some 40, some 10, some 1⟩,
        some 50, some 1000⟩) =
      some (MetricResult.failure
        "Insufficient quarterly data for TTM calculations (need 4, got 3)") ∧
    List.lookup TTM_EPS_GROWTH_KEY
      (ttmCalculate ⟨List.replicate 7 ⟨some 100, some 40, some 10, some 1⟩,
        some 50, some 1000⟩) = none ∧
    List.lookup TTM_EPS_GROWTH_KEY
      (ttmCalculate ⟨List.replicate 8 ⟨some 100, some 40, some 10, some 1⟩,
        some 50, some 1000⟩) =
      some (ttmCalculateGrowthRate
        (calculateTtmAggregates
          ((List.replicate 8 (⟨some 100, some 40, some 10, some 1⟩ :
            QuarterlyData)).take 4)).eps
        (calculateTtmAggregates
          (((List.replicate 8 (⟨some 100, some 40, some 10, some 1⟩ :
            QuarterlyData)).drop 4).take 4)).eps
        "TTM EPS growth") := by
  refine ⟨?_, ?_, ?_⟩
  · have h := (ttm_growth_window_behavior
      ⟨List.replicate 3 ⟨some 100, some 40, some 10, some 1⟩,
        some 50, some 1000⟩).1 (by simp)
    simpa using h.1
  · exact ((ttm_growth_window_behavior
      ⟨List.replicate 7 ⟨some 100, some 40, some 10, some 1⟩,
        some 50, some 1000⟩).2.1 (by simp) (by simp)).1
  · exact ((ttm_growth_window_behavior
      ⟨List.replicate 8 ⟨some 100, some 40, some 10, some 1⟩,
        some 50, some 1000⟩).2.2 (by simp)).1

/-- C10: `MetricsCalculator.get_two_year_forward_pe` returns `None` on
every estimates list whose records carry no `epsAvg` entry resolving to
the year two years ahead (in particular on documented-schema lists, which
carry only `estimatedEpsAvg`), and it returns a number only when some
record for that year supplies a positive `epsAvg` value. -/
theorem two_year_forward_pe_requires_eps_avg :
    (∀ (currentYear : ℤ) (currentPrice : ℚ) (fmpData : List EstRecord),
      (∀ r ∈ fmpData, yearKey r.date = toString (currentYear + 2) →
        r.epsAvg = none) →
      getTwoYearForwardPe currentYear currentPrice fmpData = none) ∧
    (∀ (currentYear : ℤ) (currentPrice : ℚ) (fmpData : List EstRecord)
      (v : ℚ), getTwoYearForwardPe currentYear currentPrice fmpData = some v →
      ∃ r ∈ fmpData, yearKey r.date = toString (currentYear + 2) ∧
        ∃ e, r.epsAvg = some e ∧ 0 < e) := by
  constructor
  · intro currentYear currentPrice fmpData h
    simp only [getTwoYearForwardPe]
    rw [show extractMetricByYear fmpData EstRecord.epsAvg
        (toString (currentYear + 2)) = none from
      extract_foldl_eq_none _ _ fmpData _
        (fun r hr _ hy => h r hr hy) rfl]
  · intro currentYear currentPrice fmpData v h
    simp only [getTwoYearForwardPe] at h
    cases hx : extractMetricByYear fmpData EstRecord.epsAvg
        (toString (currentYear + 2)) with
    | none => rw [hx] at h; exact absurd h (by simp)
    | some eps =>
      rw [hx] at h
      dsimp only at h
      by_cases hle : eps ≤ 0
      · rw [if_pos hle] at h; exact absurd h (by simp)
      · rcases extract_foldl_eq_some EstRecord.epsAvg _ fmpData _ eps hx with
          ⟨r, hr, _, hy, hm⟩ | habs
        · exact ⟨r, hr, hy, eps, hm, by linarith [not_le.mp hle]⟩
        · exact absurd habs (by simp)

/-- Witness for C10: a schema-shaped record (no `epsAvg`) for 2027 gives
`None` at current year 2025; the same record with `epsAvg = 4` gives
`100 / 4 = 25`, and the theorem recovers the positive record from it. -/
theorem two_year_forward_pe_requires_eps_avg_witness :
    getTwoYearForwardPe 2025 100
      [⟨"2027-12-31", some 5, some 100, none⟩] = none ∧
    ∃ r ∈ [(⟨"2027-12-31", some 5, some 100, some 4⟩ : EstRecord)],
      yearKey r.date = toString ((2025 : ℤ) + 2) ∧
      ∃ e, r.epsAvg = some e ∧ 0 < e := by
  constructor
  · exact two_year_forward_pe_requires_eps_avg.1 2025 100
      [⟨"2027-12-31", some 5, some 100, none⟩]
      (by intro r hr; simp at hr; simp [hr])
  · exact two_year_forward_pe_requires_eps_avg.2 2025 100
      [⟨"2027-12-31", some 5, some 100, some 4⟩] 25
      (by norm_num +decide [getTwoYearForwardPe, extractMetricByYear,
        extractStep, yearKey, roundTo, bankersRound, Int.fract, round_eq])

/-- C7 (counterexample): October 1 is day 1 of the month following the
Q3/Q4 boundary, so the claim requires the prior quarter's label
`"2024 Q3"`; the code has no October case and falls back to the calendar
mapping, returning `"2024 Q4"`. -/
theorem fiscal_adjusted_october_counterexample :
    dateToCalendarQuarter "2024-10-01" = some "2024 Q4" ∧
    dateToCalendarQuarter "2024-10-01" ≠ some "2024 Q3" := by
  constructor <;> decide

/-- The claim-side calendar-only mapping (Jan–Mar → Q1, Apr–Jun → Q2,
Jul–Sep → Q3, Oct–Dec → Q4). -/
def calendarQuarterSpec (y : ℤ) (m : ℕ) : String :=
  if m ≤ 3 then quarterLabel y 1
  else if m ≤ 6 then quarterLabel y 2
  else if m ≤ 9 then quarterLabel y 3
  else quarterLabel y 4

/-- The amended claim's description of the fiscal-adjusted mapping: the
just-ended quarter's label for day ≥ 25 of March/June/September/December
and for day 1 of April/July only (October 1 and January 1 are *not*
recognized), the calendar mapping otherwise. -/
def fiscalAdjustedSpec (d : MDate) : String :=
  if 25 ≤ d.day ∧ (d.month = 3 ∨ d.month = 6 ∨ d.month = 9 ∨ d.month = 12)
  then quarterLabel d.year (d.month / 3)
  else if d.day = 1 ∧ (d.month = 4 ∨ d.month = 7) then
    quarterLabel d.year (d.month / 3)
  else calendarQuarterSpec d.year d.month

/-- C7 (amended): on every parsable date the fiscal-adjusted mapping
returns the prior (just-ended) calendar quarter's label for day ≥ 25 of a
quarter-final month and for day 1 of April or July, but *not* for
October 1 or January 1, which fall back to the calendar mapping like all
remaining dates; `"2024-02-15"` maps to `2024 Q1`, `"2024-12-31"` to
`2024 Q4`, and an unparsable date yields `None`. -/
theorem date_to_calendar_quarter_fiscal_adjusted_spec :
    (∀ s, dateToCalendarQuarter s = (parseDate s).map fiscalAdjustedSpec) ∧
    dateToCalendarQuarter "2024-02-15" = some "2024 Q1" ∧
    dateToCalendarQuarter "2024-12-31" = some "2024 Q4" ∧
    dateToCalendarQuarter "2024-04-01" = some "2024 Q1" ∧
    dateToCalendarQuarter "2024-07-01" = some "2024 Q2" ∧
    dateToCalendarQuarter "2024-10-01" = some "2024 Q4" ∧
    dateToCalendarQuarter "2024-01-01" = some "2024 Q1" ∧
    dateToCalendarQuarter "2024-13-01" = none := by
  refine ⟨?_, by decide, by decide, by decide, by decide, by decide,
    by decide, by decide⟩
  intro s
  unfold dateToCalendarQuarter dateToQuarter
  cases h : parseDate s with
  | none => rfl
  | some d =>
    rcases d with ⟨y, m, day⟩
    simp only [Option.map]
    unfold fiscalAdjustedSpec calendarQuarterSpec
    dsimp only
    split_ifs <;>
      first
        | rfl
        | (exact congrArg (fun n => some (quarterLabel y n)) (by omega))

/-- C9: `filter_quarters_by_year` returns exactly the records whose
resolved calendar year matches the requested year, sorted by date
descending, and records with equal dates keep their original relative
order (Python's `list.sort` is stable). -/
theorem filter_by_year_spec {α : Type} (date : α → String)
    (data : List α) (targetYear : ℤ) :
    (∀ q, q ∈ filterByYearBy date data targetYear ↔
      q ∈ data ∧ parseYearInt (date q) = some targetYear) ∧
    (filterByYearBy date data targetYear).Sorted (descOn date) ∧
    (∀ d : String,
      (filterByYearBy date data targetYear).filter
        (fun q => date q = d) =
      (data.filter
        (fun q => parseYearInt (date q) = some targetYear)).filter
        (fun q => date q = d)) := by
  refine ⟨?_, ?_, ?_⟩
  · intro q
    unfold filterByYearBy
    rw [List.mem_insertionSort, List.mem_filter]
    simp
  · exact List.sorted_insertionSort _ _
  · intro d
    unfold filterByYearBy
    set filtered :=
      data.filter (fun q => parseYearInt (date q) = some targetYear)
      with hfiltered
    have hpair : (filtered.filter (fun q => date q = d)).Pairwise
        (descOn date) := by
      apply List.pairwise_of_forall_mem_list
      intro a ha b hb
      have hda : date a = d := by
        simpa using (List.mem_filter.mp ha).2
      have hdb : date b = d := by
        simpa using (List.mem_filter.mp hb).2
      show date b ≤ date a
      rw [hda, hdb]
    have hsub : List.Sublist (filtered.filter (fun q => date q = d))
        (List.insertionSort (descOn date) filtered) :=
      List.sublist_insertionSort hpair (List.filter_sublist _)
    have hself : (filtered.filter (fun q => date q = d)).filter
        (fun q => date q = d) = filtered.filter (fun q => date q = d) :=
      List.filter_eq_self.mpr (fun a ha => (List.mem_filter.mp ha).2)
    have hsub2 : List.Sublist (filtered.filter (fun q => date q = d))
        ((List.insertionSort (descOn date) filtered).filter
          (fun q => date q = d)) := by
      have h2 := hsub.filter (fun q => date q = d)
      rwa [hself] at h2
    have hperm : List.Perm
        ((List.insertionSort (descOn date) filtered).filter
          (fun q => date q = d))
        (filtered.filter (fun q => date q = d)) :=
      (List.perm_insertionSort (descOn date) filtered).filter _
    exact (hsub2.eq_of_length hperm.length_eq.symm).symm

/-- C8: for every input, the mapping returned by
`MetricsService.get_metrics` has exactly the fixed key set (every known
metric key plus `ticker`, `price`, `market_cap`); every metric key (and
`price`/`market_cap`) is initialized to the absent value `None` before
any calculation runs; and each key's final value is characterized
pointwise: a failed or unavailable metric leaves its key at the absent
value rather than omitting the key, and since every key's value is a
function of that metric's own inputs alone, one metric's failure never
prevents the other metrics in the same panel from being computed. -/
theorem get_metrics_stable_panel (ticker : String)
    (stockInfo : Option StockInfo) (fmpData : Option (List EstRecord))
    (ef rf : Option Forecast) (fmpRefetched : List EstRecord)
    (currentYear : ℤ) :
    (getMetrics ticker stockInfo fmpData ef rf fmpRefetched
      currentYear).map Prod.fst = panelKeys ∧
    (∀ kv ∈ initResult ticker, kv.1 = "ticker" ∨ kv.2 = PVal.absent) ∧
    List.lookup "ticker" (getMetrics ticker stockInfo fmpData ef rf
      fmpRefetched currentYear) = some (PVal.str ticker.toUpper) ∧
    List.lookup "price" (getMetrics ticker stockInfo fmpData ef rf
      fmpRefetched currentYear) = some (match stockInfo with
        | none => PVal.absent
        | some si => optNum si.current_price) ∧
    List.lookup "market_cap" (getMetrics ticker stockInfo fmpData ef rf
      fmpRefetched currentYear) = some (match stockInfo with
        | none => PVal.absent
        | some si => optNum si.market_cap) ∧
    List.lookup "ttm_pe" (getMetrics ticker stockInfo fmpData ef rf
      fmpRefetched currentYear) = some (match stockInfo with
        | none => PVal.absent
        | some si => optNum (getTtmPe si)) ∧
    List.lookup "forward_pe" (getMetrics ticker stockInfo fmpData ef rf
      fmpRefetched currentYear) = some (match stockInfo with
        | none => PVal.absent
        | some si => optNum (getForwardPe si)) ∧
    List.lookup "ttm_eps_growth" (getMetrics ticker stockInfo fmpData ef
      rf fmpRefetched currentYear) = some (match stockInfo with
        | none => PVal.absent
        | some si => optNum (getEarningsGrowth si)) ∧
    List.lookup "ttm_revenue_growth" (getMetrics ticker stockInfo fmpData
      ef rf fmpRefetched currentYear) = some (match stockInfo with
        | none => PVal.absent
        | some si => optNum (getRevenueGrowth si)) ∧
    List.lookup "gross_margin" (getMetrics ticker stockInfo fmpData ef rf
      fmpRefetched currentYear) = some (match stockInfo with
        | none => PVal.absent
        | some si => optNum (getGrossMargin si)) ∧
    List.lookup "net_margin" (getMetrics ticker stockInfo fmpData ef rf
      fmpRefetched currentYear) = some (match stockInfo with
        | none => PVal.absent
        | some si => optNum (getNetMargin si)) ∧
    List.lookup "ttm_ps_ratio" (getMetrics ticker stockInfo fmpData ef rf
      fmpRefetched currentYear) = some (match stockInfo with
        | none => PVal.absent
        | some si => optNum (getTtmPs si)) ∧
    List.lookup "two_year_forward_pe" (getMetrics ticker stockInfo fmpData
      ef rf fmpRefetched currentYear) = some (match stockInfo with
        | none => PVal.absent
        | some si =>
          if isValidList fmpData then
            (List.lookup "two_year_forward_pe"
              (calcFmpMetrics currentYear si fmpRefetched)).getD PVal.absent
          else PVal.absent) ∧
    (∀ k ∈ forecastKeys,
      List.lookup k (getMetrics ticker stockInfo fmpData ef rf
        fmpRefetched currentYear) =
      some (((List.lookup k
        (calcForecastMetrics ef rf fmpData currentYear)).map
          PVal.num).getD PVal.absent)) ∧
    List.lookup "forward_ps_ratio" (getMetrics ticker stockInfo fmpData
      ef rf fmpRefetched currentYear) = some (match stockInfo, rf with
        | some si, some f =>
          if truthyOpt (getForwardPsRatio si (some f)) then
            PVal.num ((getForwardPsRatio si (some f)).getD 0)
          else PVal.absent
        | _, _ => PVal.absent) := by
  refine ⟨?_, ?_, ?_, ?_, ?_, ?_, ?_, ?_, ?_, ?_, ?_, ?_, ?_, ?_, ?_⟩
  · exact keys_stage4 _ _ _ (keys_stage3 _ _ _ _ _
      (keys_stage2 _ _ _ _ _ (by cases stockInfo <;> rfl)))
  · intro kv hkv
    simp only [initResult, List.mem_cons, List.not_mem_nil,
      or_false] at hkv
    rcases hkv with rfl | rfl | rfl | rfl | rfl | rfl | rfl | rfl | rfl |
      rfl | rfl | rfl | rfl | rfl | rfl | rfl <;> simp
  · exact lookup_stage4_of_ne _ (by decide) _ _ _ _
      (lookup_stage3_of_ne _ (by decide) _ _ _ _ _ _
        (lookup_stage2_of_ne _ (by decide) _ _ _ _ _ _
          (by cases stockInfo <;> rfl)))
  · exact lookup_stage4_of_ne _ (by decide) _ _ _ _
      (lookup_stage3_of_ne _ (by decide) _ _ _ _ _ _
        (lookup_stage2_of_ne _ (by decide) _ _ _ _ _ _
          (by cases stockInfo <;> rfl)))
  · exact lookup_stage4_of_ne _ (by decide) _ _ _ _
      (lookup_stage3_of_ne _ (by decide) _ _ _ _ _ _
        (lookup_stage2_of_ne _ (by decide) _ _ _ _ _ _
          (by cases stockInfo <;> rfl)))
  · exact lookup_stage4_of_ne _ (by decide) _ _ _ _
      (lookup_stage3_of_ne _ (by decide) _ _ _ _ _ _
        (lookup_stage2_of_ne _ (by decide) _ _ _ _ _ _
          (by cases stockInfo <;> rfl)))
  · exact lookup_stage4_of_ne _ (by decide) _ _ _ _
      (lookup_stage3_of_ne _ (by decide) _ _ _ _ _ _
        (lookup_stage2_of_ne _ (by decide) _ _ _ _ _ _
          (by cases stockInfo <;> rfl)))
  · exact lookup_stage4_of_ne _ (by decide) _ _ _ _
      (lookup_stage3_of_ne _ (by decide) _ _ _ _ _ _
        (lookup_stage2_of_ne _ (by decide) _ _ _ _ _ _
          (by cases stockInfo <;> rfl)))
  · exact lookup_stage4_of_ne _ (by decide) _ _ _ _
      (lookup_stage3_of_ne _ (by decide) _ _ _ _ _ _
        (lookup_stage2_of_ne _ (by decide) _ _ _ _ _ _
          (by cases stockInfo <;> rfl)))
  · exact lookup_stage4_of_ne _ (by decide) _ _ _ _
      (lookup_stage3_of_ne _ (by decide) _ _ _ _ _ _
        (lookup_stage2_of_ne _ (by decide) _ _ _ _ _ _
          (by cases stockInfo <;> rfl)))
  · exact lookup_stage4_of_ne _ (by decide) _ _ _ _
      (lookup_stage3_of_ne _ (by decide) _ _ _ _ _ _
        (lookup_stage2_of_ne _ (by decide) _ _ _ _ _ _
          (by cases stockInfo <;> rfl)))
  · exact lookup_stage4_of_ne _ (by decide) _ _ _ _
      (lookup_stage3_of_ne _ (by decide) _ _ _ _ _ _
        (lookup_stage2_of_ne _ (by decide) _ _ _ _ _ _
          (by cases stockInfo <;> rfl)))
  · apply lookup_stage4_of_ne _ (by decide)
    apply lookup_stage3_of_ne _ (by decide)
    cases stockInfo with
    | none => rfl
    | some si =>
      unfold stage2
      dsimp only
      split_ifs with hv
      · rw [lookup_dictUpdate "two_year_forward_pe"
          (stage1 ticker (some si))
          (calcFmpMetrics currentYear si fmpRefetched) PVal.absent rfl]
      · rfl
  · intro k hk
    have hmem := hk
    simp only [forecastKeys, List.mem_cons, List.not_mem_nil,
      or_false] at hmem
    have hne1 : k ≠ "forward_ps_ratio" := by
      rcases hmem with rfl | rfl | rfl | rfl <;> decide
    have hne2 : k ≠ "two_year_forward_pe" := by
      rcases hmem with rfl | rfl | rfl | rfl <;> decide
    apply lookup_stage4_of_ne _ hne1
    apply lookup_stage3_forecast
    apply lookup_stage2_of_ne _ hne2
    rcases hmem with rfl | rfl | rfl | rfl <;> cases stockInfo <;> rfl
  · apply lookup_stage4_forward_ps
    exact lookup_stage3_of_ne _ (by decide) _ _ _ _ _ _
      (lookup_stage2_of_ne _ (by decide) _ _ _ _ _ _
        (by cases stockInfo <;> rfl))

/-- Witness for C8 at concrete inputs: the first initial entry is a
metric key at the absent value, and with no data at all the
`current_year_eps_growth` key is still present, at the absent value. -/
theorem get_metrics_stable_panel_witness :
    (("ttm_pe", PVal.absent).1 = "ticker" ∨
      ("ttm_pe", PVal.absent).2 = PVal.absent) ∧
    List.lookup "current_year_eps_growth"
      (getMetrics "aapl" none none none none [] 2025) =
      some (((List.lookup "current_year_eps_growth"
        (calcForecastMetrics none none none 2025)).map
          PVal.num).getD PVal.absent) :=
  ⟨(get_metrics_stable_panel "aapl" none none none none [] 2025).2.1
      ("ttm_pe", PVal.absent) (List.mem_cons_self _ _),
   (get_metrics_stable_panel "aapl" none none none none []
      2025).2.2.2.2.2.2.2.2.2.2.2.2.2.1
      "current_year_eps_growth" (by decide)⟩

end StockInsights
